import Mathlib

/-!
Verification of the kommo-middleware webhook service (src/app.py) against its
natural-language specification.

The Python code is shallowly embedded: Python strings are `List Char`, Python
values that flow through the webhook payloads are `PyVal`, fallible Python
operations return `Except PyErr`, and outbound HTTP side effects are recorded
in a trace of `Eff` events whose success or failure is decided by an `Oracle`.
-/

set_option maxRecDepth 40000

namespace KommoMW

/-! ## Python string primitives -/

/-- Python whitespace for str.strip and friends (space, tab, LF, CR, VT, FF). -/
def pySpace (c : Char) : Bool :=
  c = ' ' || c = '\t' || c = '\n' || c = '\r' || c = '\x0b' || c = '\x0c'

/-- Python str.lstrip() with no arguments. -/
def pyLstrip (s : List Char) : List Char := s.dropWhile pySpace

/-- Python str.rstrip() with no arguments. -/
def pyRstrip (s : List Char) : List Char := (s.reverse.dropWhile pySpace).reverse

/-- Python str.strip() with no arguments. -/
def pyStrip (s : List Char) : List Char := pyLstrip (pyRstrip s)

/-- The substring `sub` occurs in `s` at index `i`. -/
def occursAt (s sub : List Char) (i : Nat) : Prop :=
  (s.drop i).take sub.length = sub

instance (s sub : List Char) (i : Nat) : Decidable (occursAt s sub i) := by
  unfold occursAt; infer_instance

/-- Helper for str.rfind: highest index `≤ n` at which `sub` occurs in `s`. -/
def rfindAux (s sub : List Char) : Nat → Option Nat
  | 0 => if occursAt s sub 0 then some 0 else Option.none
  | Nat.succ i =>
    if occursAt s sub (Nat.succ i) then some (Nat.succ i) else rfindAux s sub i

/-- Python str.rfind: index of the last occurrence of `sub` in `s`
(`Option.none` models the -1 result). -/
def pyRfind (s sub : List Char) : Option Nat := rfindAux s sub s.length

/-- Value of a run of decimal digits. -/
def digitsToNat (s : List Char) : Nat :=
  s.foldl (fun a c => a * 10 + (c.toNat - 48)) 0

/-- All characters are decimal digits. -/
def allDigits (s : List Char) : Bool := s.all fun c => c.isDigit

/-- Python int(str): optional surrounding whitespace, optional sign, digits. -/
def pyIntParse (s : List Char) : Option Int :=
  match pyStrip s with
  | [] => Option.none
  | c :: rest =>
    if c = '-' then
      if rest ≠ [] ∧ allDigits rest then some (-(digitsToNat rest : Int)) else Option.none
    else if c = '+' then
      if rest ≠ [] ∧ allDigits rest then some ((digitsToNat rest : Int)) else Option.none
    else if (c :: rest) ≠ [] ∧ allDigits (c :: rest) then
      some ((digitsToNat (c :: rest) : Int))
    else Option.none

/-! ## Python values and errors -/

/-- A Python value as it appears in webhook payloads and JSON-decoded data.
`rat` models non-integral JSON numbers (Python floats) exactly as rationals. -/
inductive PyVal where
  | str (s : List Char)
  | int (n : Int)
  | rat (q : Rat)
  | bool (b : Bool)
  | none
  | list (xs : List PyVal)
  | dict (kvs : List (List Char × PyVal))

/-- The Python exceptions the embedded code can raise. -/
inductive PyErr where
  | attributeError
  | typeError
  | valueError
  | runtimeError (msg : List Char)
  | httpError
deriving DecidableEq

/-- Python truthiness (bool(v)). -/
def pyTruthy : PyVal → Bool
  | .str s => !s.isEmpty
  | .int n => n != 0
  | .rat q => q != 0
  | .bool b => b
  | .none => false
  | .list xs => !xs.isEmpty
  | .dict kvs => !kvs.isEmpty

/-- Python `a or b` (value-returning, short-circuit). -/
def pyOr (a b : PyVal) : PyVal := if pyTruthy a then a else b

/-- Python `v == s` against a string literal: only strings compare equal. -/
def pyEqStr (v : PyVal) (s : List Char) : Bool :=
  match v with
  | .str t => t = s
  | _ => false

/-- First binding of a key in an association list (keys are unique because
dict construction overwrites). -/
def dictFind : List (List Char × PyVal) → List Char → Option PyVal
  | [], _ => Option.none
  | (k0, v0) :: rest, k => if k0 = k then some v0 else dictFind rest k

/-- Python dict insertion: overwrite in place, else append. -/
def dictInsert : List (List Char × PyVal) → List Char → PyVal → List (List Char × PyVal)
  | [], k, v => [(k, v)]
  | (k0, v0) :: rest, k, v =>
    if k0 = k then (k0, v) :: rest else (k0, v0) :: dictInsert rest k v

/-- Python `v.get(k)` (default None): AttributeError unless `v` is a dict. -/
def pyGet (v : PyVal) (k : List Char) : Except PyErr PyVal :=
  match v with
  | .dict kvs => .ok ((dictFind kvs k).getD .none)
  | _ => .error .attributeError

/-- Python `v.get(k, d)` with an explicit default. -/
def pyGetD (v : PyVal) (k : List Char) (d : PyVal) : Except PyErr PyVal :=
  match v with
  | .dict kvs => .ok ((dictFind kvs k).getD d)
  | _ => .error .attributeError

/-- Truncation toward zero, as Python int(float). -/
def ratTrunc (q : Rat) : Int := if q ≥ 0 then q.floor else q.ceil

/-- Python int(v): ints/bools/floats convert, strings parse (ValueError on
failure), anything else is a TypeError. -/
def pyToInt : PyVal → Except PyErr Int
  | .int n => .ok n
  | .bool b => .ok (if b then 1 else 0)
  | .rat q => .ok (ratTrunc q)
  | .str s =>
    match pyIntParse s with
    | some n => .ok n
    | _ => .error .valueError
  | .none => .error .typeError
  | .list _ => .error .typeError
  | .dict _ => .error .typeError

/-- Python repr(v), approximated: strings are quoted without re-escaping
their interior, floats are shown as exact rationals. Container shapes and
non-emptiness are faithful, which is all the embedded code depends on. -/
def pyRepr : PyVal → List Char
  | .str s => '\x27' :: s ++ ['\x27']
  | .int n => (toString n).toList
  | .rat q => (toString q).toList
  | .bool true => "True".toList
  | .bool false => "False".toList
  | .none => "None".toList
  | .list xs => '[' :: pyReprList xs ++ [']']
  | .dict kvs => '\x7b' :: pyReprDict kvs ++ ['\x7d']
where
  pyReprList : List PyVal → List Char
  | [] => []
  | [x] => pyRepr x
  | x :: xs => pyRepr x ++ ", ".toList ++ pyReprList xs
  pyReprDict : List (List Char × PyVal) → List Char
  | [] => []
  | [(k, v)] => '\x27' :: k ++ '\x27' :: ": ".toList ++ pyRepr v
  | (k, v) :: xs =>
    '\x27' :: k ++ '\x27' :: ": ".toList ++ pyRepr v ++ ", ".toList ++ pyReprDict xs

/-- Python str(v): identity on strings, repr-like elsewhere. -/
def pyStr : PyVal → List Char
  | .str s => s
  | v => pyRepr v

/-! ## json.loads -/

/-- JSON whitespace. -/
def jsonWs (c : Char) : Bool := c = ' ' || c = '\t' || c = '\n' || c = '\r'

/-- Skip JSON whitespace. -/
def skipWs (s : List Char) : List Char := s.dropWhile jsonWs

/-- Decimal digit test (named to help elaboration in higher-order uses). -/
def isDig (c : Char) : Bool := c.isDigit

/-- Hexadecimal digit test. -/
def isHexDig (c : Char) : Bool :=
  c.isDigit || ('a' ≤ c && c ≤ 'f') || ('A' ≤ c && c ≤ 'F')

/-- Value of a hexadecimal digit. -/
def hexVal (c : Char) : Nat :=
  if c.isDigit then c.toNat - 48
  else if c.toNat ≥ 97 then c.toNat - 87
  else c.toNat - 55

/-- Parse the body of a JSON string after the opening quote, accumulating the
decoded characters in reverse. Accepts the standard escapes; rejects
unescaped control characters, as Python json does. -/
def parseJsonStrAux : List Char → List Char → Except (List Char) (List Char × List Char)
  | _, [] => .error ("Unterminated string".toList)
  | acc, '"' :: rest => .ok (acc.reverse, rest)
  | acc, '\\' :: esc =>
    match esc with
    | '"' :: rest => parseJsonStrAux ('"' :: acc) rest
    | '\\' :: rest => parseJsonStrAux ('\\' :: acc) rest
    | '/' :: rest => parseJsonStrAux ('/' :: acc) rest
    | 'b' :: rest => parseJsonStrAux (Char.ofNat 8 :: acc) rest
    | 'f' :: rest => parseJsonStrAux (Char.ofNat 12 :: acc) rest
    | 'n' :: rest => parseJsonStrAux ('\n' :: acc) rest
    | 'r' :: rest => parseJsonStrAux ('\r' :: acc) rest
    | 't' :: rest => parseJsonStrAux ('\t' :: acc) rest
    | 'u' :: a :: b :: c :: d :: rest =>
      if isHexDig a ∧ isHexDig b ∧ isHexDig c ∧ isHexDig d then
        parseJsonStrAux
          (Char.ofNat (hexVal a * 4096 + hexVal b * 256 + hexVal c * 16 + hexVal d) :: acc) rest
      else .error ("Invalid hex escape".toList)
    | _ => .error ("Invalid escape".toList)
  | acc, c :: rest =>
    if c.toNat < 32 then .error ("Invalid control character".toList)
    else parseJsonStrAux (c :: acc) rest

/-- Parse the body of a JSON string after the opening quote. -/
def parseJsonStr (s : List Char) : Except (List Char) (List Char × List Char) :=
  parseJsonStrAux [] s

/-- Parse a JSON number (sign, integer part, optional fraction/exponent).
Integral lexemes become Python ints, others floats (modelled exactly). -/
def parseJsonNum (s : List Char) : Except (List Char) (PyVal × List Char) :=
  let (sign, s1) :=
    match s with
    | '-' :: rest => ((-1 : Int), rest)
    | _ => ((1 : Int), s)
  match s1 with
  | c :: _ =>
    if c.isDigit then
      let ip := s1.takeWhile isDig
      let s2 := s1.dropWhile isDig
      if ip.length > 1 ∧ c = '0' then .error ("Leading zeros".toList)
      else
        let (fp, s3) :=
          match s2 with
          | '.' :: r =>
            (r.takeWhile isDig, r.dropWhile isDig)
          | _ => ([], s2)
        if s2.length > s3.length + fp.length ∧ fp = [] then
          .error ("Expecting digit after point".toList)
        else
          let (hasExp, es, s4) :=
            match s3 with
            | 'e' :: r => (true, r, r)
            | 'E' :: r => (true, r, r)
            | _ => (false, s3, s3)
          if hasExp then
            let (esign, s5) :=
              match s4 with
              | '-' :: r => ((-1 : Int), r)
              | '+' :: r => ((1 : Int), r)
              | _ => ((1 : Int), s4)
            let ed := s5.takeWhile isDig
            let s6 := s5.dropWhile isDig
            if ed = [] then .error ("Expecting exponent digits".toList)
            else
              .ok (.rat ((sign : Rat) * (digitsToNat (ip ++ fp) : Rat) *
                    (10 : Rat) ^ (esign * (digitsToNat ed : Int) - (fp.length : Int))), s6)
          else if fp = [] then
            let _ := es
            .ok (.int (sign * (digitsToNat ip : Int)), s3)
          else
            .ok (.rat ((sign : Rat) * (digitsToNat (ip ++ fp) : Rat) *
                  (10 : Rat) ^ (-(fp.length : Int))), s3)
    else .error ("Expecting value".toList)
  | [] => .error ("Expecting value".toList)

mutual

/-- Fuel-bounded recursive-descent parser for a JSON value, following the
grammar Python json.loads accepts. -/
def parseJsonVal : Nat → List Char → Except (List Char) (PyVal × List Char)
  | 0, _ => .error ("Out of fuel".toList)
  | Nat.succ fuel, s =>
    match skipWs s with
    | [] => .error ("Expecting value".toList)
    | '"' :: rest =>
      match parseJsonStr rest with
      | .ok (str, r) => .ok (.str str, r)
      | .error e => .error e
    | '[' :: rest => parseJsonArr fuel rest
    | '{' :: rest => parseJsonObj fuel rest
    | 't' :: rest =>
      if rest.take 3 = "rue".toList then .ok (.bool true, rest.drop 3)
      else .error ("Expecting value".toList)
    | 'f' :: rest =>
      if rest.take 4 = "alse".toList then .ok (.bool false, rest.drop 4)
      else .error ("Expecting value".toList)
    | 'n' :: rest =>
      if rest.take 3 = "ull".toList then .ok (.none, rest.drop 3)
      else .error ("Expecting value".toList)
    | other => parseJsonNum other

/-- Elements of a JSON array after the opening bracket. -/
def parseJsonArr : Nat → List Char → Except (List Char) (PyVal × List Char)
  | 0, _ => .error ("Out of fuel".toList)
  | Nat.succ fuel, s =>
    match skipWs s with
    | ']' :: rest => .ok (.list [], rest)
    | _ =>
      match parseJsonVal fuel s with
      | .error e => .error e
      | .ok (v, r) => parseJsonArrTail fuel r [v]

/-- Remaining elements of a JSON array (after at least one element). -/
def parseJsonArrTail : Nat → List Char → List PyVal → Except (List Char) (PyVal × List Char)
  | 0, _, _ => .error ("Out of fuel".toList)
  | Nat.succ fuel, s, acc =>
    match skipWs s with
    | ']' :: rest => .ok (.list acc.reverse, rest)
    | ',' :: rest =>
      match parseJsonVal fuel rest with
      | .error e => .error e
      | .ok (v, r) => parseJsonArrTail fuel r (v :: acc)
    | _ => .error ("Expecting comma or bracket".toList)

/-- Members of a JSON object after the opening brace. -/
def parseJsonObj : Nat → List Char → Except (List Char) (PyVal × List Char)
  | 0, _ => .error ("Out of fuel".toList)
  | Nat.succ fuel, s =>
    match skipWs s with
    | '}' :: rest => .ok (.dict [], rest)
    | _ => parseJsonObjMember fuel s []

/-- One key-value member of a JSON object, then the tail. -/
def parseJsonObjMember : Nat → List Char → List (List Char × PyVal) →
    Except (List Char) (PyVal × List Char)
  | 0, _, _ => .error ("Out of fuel".toList)
  | Nat.succ fuel, s, acc =>
    match skipWs s with
    | '"' :: rest =>
      match parseJsonStr rest with
      | .error e => .error e
      | .ok (k, r1) =>
        match skipWs r1 with
        | ':' :: r2 =>
          match parseJsonVal fuel r2 with
          | .error e => .error e
          | .ok (v, r3) => parseJsonObjTail fuel r3 (dictInsert acc k v)
        | _ => .error ("Expecting colon".toList)
    | _ => .error ("Expecting property name".toList)

/-- After one object member: close brace or comma and another member. -/
def parseJsonObjTail : Nat → List Char → List (List Char × PyVal) →
    Except (List Char) (PyVal × List Char)
  | 0, _, _ => .error ("Out of fuel".toList)
  | Nat.succ fuel, s, acc =>
    match skipWs s with
    | '}' :: rest => .ok (.dict acc, rest)
    | ',' :: rest => parseJsonObjMember fuel rest acc
    | _ => .error ("Expecting comma or brace".toList)

end

/-- Python json.loads: parse one JSON value and require only whitespace after
it. The fuel bound is generous enough for any input of the given length. -/
def jsonLoads (s : List Char) : Except (List Char) PyVal :=
  match parseJsonVal (2 * s.length + 4) s with
  | .error e => .error e
  | .ok (v, rest) =>
    if skipWs rest = [] then .ok v else .error ("Extra data".toList)

/-! ## split_erika_output (src/app.py lines 53-86) -/

/-- The ERIKA_ACTION start sentinel. -/
def ACTION_START : List Char := "### ERIKA_ACTION".toList

/-- The ERIKA_ACTION end sentinel. -/
def ACTION_END : List Char := "### END_ERIKA_ACTION".toList

/-- The candidate action block of split_erika_output: the text after the
last start sentinel, cut at the last end sentinel if present, stripped. -/
def erika_candidate (full_text : List Char) (start : Nat) : List Char :=
  pyStrip (match pyRfind (full_text.drop (start + ACTION_START.length)) ACTION_END with
    | some e => (full_text.drop (start + ACTION_START.length)).take e
    | Option.none => full_text.drop (start + ACTION_START.length))

/-- The action value split_erika_output derives from the candidate block:
None when empty, the JSON value when it parses, None when it does not
(the json.JSONDecodeError is caught and only logged). -/
def erika_parse (action_raw : List Char) : PyVal :=
  if action_raw = [] then .none
  else
    match jsonLoads action_raw with
    | .ok v => v
    | .error _ => .none

/-- split_erika_output: separate the customer-visible text from the
ERIKA_ACTION block (PyVal.none models the Python None action). -/
def split_erika_output (full_text : List Char) : List Char × PyVal :=
  if full_text = [] then ([], .none)
  else
    match pyRfind full_text ACTION_START with
    | Option.none => (pyStrip full_text, .none)
    | some start =>
      (pyRstrip (full_text.take start), erika_parse (erika_candidate full_text start))

/-! ## Configuration, side-effect trace and collaborator oracles -/

/-- The environment-derived configuration read at module import. -/
structure Config where
  kommoDomain : List Char
  kommoToken : List Char
  authorizedSubdomain : List Char
  erikaAssistantId : List Char
  getenv : List Char → Option (List Char)

/-- One outbound side effect (an HTTP request actually issued, or the
assistant invocation). -/
inductive Eff where
  | erikaCall (message lead phone : PyVal)
  | notePost (lead : Int) (text : List Char)
  | stagePatch (lead : Int) (statusId : Int)
  | leadsGet (statusId : Int)
  | whatsappSend (lead : PyVal) (text : List Char)
  | widgetPost (url : List Char) (text : List Char)

/-- Outcomes of the external collaborators (OpenAI and the Kommo REST API). -/
structure Oracle where
  erika : PyVal → PyVal → PyVal → Except PyErr (List Char)
  notePost : Int → List Char → Bool
  stagePatch : Int → Int → Bool
  leadsBody : Except PyErr PyVal
  widgetPost : List Char → List Char → Bool

/-! ## Kommo helpers (src/app.py lines 93-159) -/

/-- add_kommo_note: silently return unless the lead id is truthy, domain,
token and text are all non-empty; otherwise POST the note and raise on an
HTTP error status. -/
def add_kommo_note (cfg : Config) (o : Oracle) (lead_id : PyVal) (text : List Char) :
    List Eff × Except PyErr Unit :=
  if !pyTruthy lead_id || cfg.kommoDomain.isEmpty || cfg.kommoToken.isEmpty || text.isEmpty then
    ([], .ok ())
  else
    match pyToInt lead_id with
    | .error e => ([], .error e)
    | .ok l => ([.notePost l text], if o.notePost l text then .ok () else .error .httpError)

/-- Stage-name to environment-variable map (src/app.py lines 116-131). -/
def STAGE_ENV_MAP : List (List Char × List Char) := [
  ("Leads Recebidos".toList, "KOMMO_STATUS_LEADS_RECEBIDOS".toList),
  ("Contato em Andamento".toList, "KOMMO_STATUS_CONTATO_EM_ANDAMENTO".toList),
  ("Serviço Vendido".toList, "KOMMO_STATUS_SERVICO_VENDIDO".toList),
  ("Agendamento Pendente".toList, "KOMMO_STATUS_AGENDAMENTO_PENDENTE".toList),
  ("Agendamentos Confirmados".toList, "KOMMO_STATUS_AGENDAMENTOS_CONFIRMADOS".toList),
  ("Cliente Presente".toList, "KOMMO_STATUS_CLIENTE_PRESENTE".toList),
  ("Cliente Ausente".toList, "KOMMO_STATUS_CLIENTE_AUSENTE".toList),
  ("Reengajar".toList, "KOMMO_STATUS_REENGAJAR".toList),
  ("Solicitar FeedBack".toList, "KOMMO_STATUS_SOLICITAR_FEEDBACK".toList),
  ("Solicitar Avaliação Google".toList, "KOMMO_STATUS_SOLICITAR_AVALIACAO_GOOGLE".toList),
  ("Avaliação 5 Estrelas".toList, "KOMMO_STATUS_AVALIACAO_5_ESTRELAS".toList),
  ("Cliente Insatisfeito".toList, "KOMMO_STATUS_CLIENTE_INSATISFEITO".toList),
  ("Vagas de Emprego".toList, "KOMMO_STATUS_VAGAS_DE_EMPREGO".toList),
  ("Solicitar Atendimento Humano".toList, "KOMMO_STATUS_SOLICITAR_ATENDIMENTO_HUMANO".toList)]

/-- Association-list lookup on string keys. -/
def lookupStr : List (List Char × List Char) → List Char → Option (List Char)
  | [], _ => Option.none
  | (k0, v0) :: rest, k => if k0 = k then some v0 else lookupStr rest k

/-- STAGE_ENV_MAP.get(stage_name): dict lookup raises TypeError on an
unhashable key, misses on every non-string hashable key. -/
def stageEnvName (stage_name : PyVal) : Except PyErr (Option (List Char)) :=
  match stage_name with
  | .list _ => .error .typeError
  | .dict _ => .error .typeError
  | .str s => .ok (lookupStr STAGE_ENV_MAP s)
  | _ => .ok Option.none

/-- update_lead_stage: silently return when the lead or stage is falsy, the
stage has no mapped or set environment variable, or the CRM is unconfigured;
otherwise PATCH the lead status and raise on an HTTP error status. -/
def update_lead_stage (cfg : Config) (o : Oracle) (lead_id stage_name : PyVal) :
    List Eff × Except PyErr Unit :=
  if !pyTruthy lead_id || !pyTruthy stage_name then ([], .ok ())
  else
    match stageEnvName stage_name with
    | .error e => ([], .error e)
    | .ok Option.none => ([], .ok ())
    | .ok (some env_name) =>
      match cfg.getenv env_name with
      | Option.none => ([], .ok ())
      | some status_id =>
        if status_id.isEmpty then ([], .ok ())
        else if cfg.kommoDomain.isEmpty || cfg.kommoToken.isEmpty then ([], .ok ())
        else
          match pyToInt lead_id with
          | .error e => ([], .error e)
          | .ok l =>
            match pyIntParse status_id with
            | Option.none => ([], .error .valueError)
            | some sid =>
              ([.stagePatch l sid], if o.stagePatch l sid then .ok () else .error .httpError)

/-- call_openai_erika: RuntimeError when the assistant id is unconfigured,
otherwise one assistant round trip whose raw text (or failure) the oracle
decides. -/
def call_openai_erika (cfg : Config) (o : Oracle) (user_message lead_id phone : PyVal) :
    List Eff × Except PyErr (List Char) :=
  if cfg.erikaAssistantId.isEmpty then
    ([], .error (.runtimeError ("OPENAI_ASSISTANT_ID nao configurado".toList)))
  else ([.erikaCall user_message lead_id phone], o.erika user_message lead_id phone)

/-! ## Webhook payload field extraction (src/app.py lines 440-492) -/

/-- Is the value a Python dict. -/
def isDict : PyVal → Bool
  | .dict _ => true
  | _ => false

/-- Dict field access with None default, for values already known to be
dicts. -/
def dictGetVal (v : PyVal) (k : List Char) : PyVal :=
  match v with
  | .dict kvs => (dictFind kvs k).getD .none
  | _ => .none

/-- Substring containment, as the Python `in` operator on str. -/
def containsSub (s sub : List Char) : Bool := (pyRfind s sub).isSome

/-- The subdomain probed for the auth check:
`account.get("subdomain") or account.get("name")` when the account block is
a dict, None otherwise. -/
def subdomain_of (payload : PyVal) : Except PyErr PyVal := do
  let a ← pyGet payload ("account".toList)
  let account := pyOr a (.dict [])
  match account with
  | .dict kvs =>
    let s1 := (dictFind kvs ("subdomain".toList)).getD .none
    if pyTruthy s1 then pure s1 else pure ((dictFind kvs ("name".toList)).getD .none)
  | _ => pure .none

/-- The optional-subdomain validation: true means the handler raises 401. -/
def webhook_auth_fails (cfg : Config) (payload : PyVal) : Except PyErr Bool :=
  if cfg.authorizedSubdomain.isEmpty then .ok false
  else do
    let sd ← subdomain_of payload
    pure (pyTruthy sd && !(pyEqStr sd cfg.authorizedSubdomain))

/-- data = payload.get("data") or payload. -/
def webhook_data (payload : PyVal) : Except PyErr PyVal := do
  let d ← pyGet payload ("data".toList)
  pure (pyOr d payload)

/-- msg_block = data.get("message") or an empty dict. -/
def webhook_msg_block (data : PyVal) : Except PyErr PyVal := do
  let m ← pyGet data ("message".toList)
  pure (pyOr m (.dict []))

/-- The message-text probe chain (lines 452-461), evaluated lazily with
Python `or` semantics; yields the empty string when every probe is falsy. -/
def extract_message_text (data : PyVal) : Except PyErr PyVal := do
  let msg_block ← webhook_msg_block data
  let t1 ← pyGet msg_block ("text".toList)
  if pyTruthy t1 then pure t1 else
  let t2 ← pyGet msg_block ("body".toList)
  if pyTruthy t2 then pure t2 else
  let t3 ← pyGet msg_block ("message".toList)
  if pyTruthy t3 then pure t3 else
  let conv ← pyGet data ("conversation".toList)
  let lm ← pyGetD (pyOr conv (.dict [])) ("last_message".toList) (.dict [])
  let t4 ← pyGet lm ("text".toList)
  if pyTruthy t4 then pure t4 else
  let lm2 ← pyGet data ("last_message".toList)
  let t5 ← pyGet (pyOr lm2 (.dict [])) ("text".toList)
  if pyTruthy t5 then pure t5 else
  let t6 ← pyGet data ("text".toList)
  if pyTruthy t6 then pure t6 else
  pure (.str [])

/-- Fallback lead id scan over message items whose key mentions an entity or
element id; int() failures are swallowed and the scan continues. -/
def leadIdFromItems : List (List Char × PyVal) → PyVal → PyVal
  | [], acc => acc
  | (k, v) :: rest, acc =>
    if containsSub k ("entity_id".toList) || containsSub k ("element_id".toList) then
      match pyToInt v with
      | .ok n => .int n
      | .error _ => leadIdFromItems rest acc
    else leadIdFromItems rest acc

/-- The lead-id probe chain (lines 463-480). -/
def extract_lead_id (data : PyVal) : Except PyErr PyVal := do
  let lead0 ← pyGet data ("lead".toList)
  let lead := pyOr lead0 (.dict [])
  let l1 ← pyGet lead ("id".toList)
  let lead_id ←
    if pyTruthy l1 then pure l1 else do
      let l2 ← pyGet data ("lead_id".toList)
      if pyTruthy l2 then pure l2 else do
        let conv ← pyGet data ("conversation".toList)
        pyGet (pyOr conv (.dict [])) ("lead_id".toList)
  if pyTruthy lead_id then pure lead_id else do
    let msg_block ← webhook_msg_block data
    match msg_block with
    | .dict kvs => pure (leadIdFromItems kvs lead_id)
    | _ => pure lead_id

/-- The phone probe (lines 482-492): first entry of contact.phones, guarded
by isinstance checks so it never raises. -/
def extract_phone (data : PyVal) : Except PyErr PyVal := do
  let c0 ← pyGet data ("contact".toList)
  let contact := pyOr c0 (.dict [])
  match contact with
  | .dict kvs =>
    let phones := pyOr ((dictFind kvs ("phones".toList)).getD .none) (.list [])
    match phones with
    | .list (first :: _) =>
      match first with
      | .dict fkvs =>
        let v := (dictFind fkvs ("value".toList)).getD .none
        if pyTruthy v then pure v else pure ((dictFind fkvs ("phone".toList)).getD .none)
      | .str s => pure (.str s)
      | _ => pure .none
    | _ => pure .none
  | _ => pure .none

/-! ## The webhook handler (src/app.py lines 412-543) -/

/-- The HTTP-level result of a handler. -/
inductive Resp where
  | ignored
  | ok (lead_id : PyVal) (ai_response : List Char) (erika_action : PyVal)
  | httpErr (code : Nat)

/-- Either a response (normal or raised HTTPException) or an unhandled
Python exception (which the framework turns into a generic 500 crash). -/
inductive Outcome where
  | resp (r : Resp)
  | crash (e : PyErr)

/-- The canned greeting substituted for an empty visible reply (line 515). -/
def DEFAULT_GREETING : List Char :=
  "Oi! Sou a Erika, da TecBrilho. Como posso te ajudar hoje?".toList

/-- reply_text (lines 512-516): the stripped visible text, or the default
greeting when it strips to nothing. -/
def webhook_reply_text (visible : List Char) : List Char :=
  if !visible.isEmpty && !(pyStrip visible).isEmpty then pyStrip visible else DEFAULT_GREETING

/-- The note/stage block (lines 519-534): one try around the reply note, the
summary note and the stage update; the first exception skips the remaining
steps of the block and is only logged. Returns the effects issued. -/
def webhook_notes_phase (cfg : Config) (o : Oracle) (lead_id : PyVal)
    (reply_text : List Char) (action : PyVal) : List Eff :=
  if !pyTruthy lead_id then []
  else
    match add_kommo_note cfg o lead_id (("Erika 🧠:\n".toList) ++ reply_text) with
    | (e1, .error _) => e1
    | (e1, .ok _) =>
      if pyTruthy action && isDict action then
        match (if pyTruthy (dictGetVal action ("summary_note".toList)) then
            add_kommo_note cfg o lead_id
              (("ERIKA_ACTION: ".toList) ++ pyStr (dictGetVal action ("summary_note".toList)))
          else ([], .ok ())) with
        | (e2, .error _) => e1 ++ e2
        | (e2, .ok _) =>
          e1 ++ e2 ++
            (if pyTruthy (dictGetVal action ("kommo_suggested_stage".toList)) then
              (update_lead_stage cfg o lead_id
                (dictGetVal action ("kommo_suggested_stage".toList))).1
            else [])
      else e1

/-- The extraction phase of the handler (lines 449-492): the data block,
then message text, lead id and phone, in source order. -/
def webhook_extract (payload : PyVal) : Except PyErr (PyVal × PyVal × PyVal) := do
  let data ← webhook_data payload
  let mtext ← extract_message_text data
  let lid ← extract_lead_id data
  let ph ← extract_phone data
  pure (mtext, lid, ph)

/-- The webhook handler after the subdomain validation: field extraction,
the ignore check, the assistant call (500 on failure), output splitting,
the best-effort note/stage block, and the final JSON response. -/
def webhook_after_auth (cfg : Config) (o : Oracle) (payload : PyVal) : List Eff × Outcome :=
  match webhook_extract payload with
  | .error e => ([], .crash e)
  | .ok (mtext, lid, ph) =>
    if (pyStrip (pyStr mtext)).isEmpty then ([], .resp .ignored)
    else
      let (eA, rA) := call_openai_erika cfg o mtext lid ph
      match rA with
      | .error _ => (eA, .resp (.httpErr 500))
      | .ok ai_full =>
        let (visible, action) := split_erika_output ai_full
        let reply := webhook_reply_text visible
        (eA ++ webhook_notes_phase cfg o lid reply action, .resp (.ok lid reply action))

/-- kommo_webhook on an already-decoded payload: subdomain validation
(401 on mismatch), then the rest of the handler. -/
def kommo_webhook (cfg : Config) (o : Oracle) (payload : PyVal) : List Eff × Outcome :=
  match webhook_auth_fails cfg payload with
  | .error e => ([], .crash e)
  | .ok true => ([], .resp (.httpErr 401))
  | .ok false => webhook_after_auth cfg o payload

/-! ## Reactivation cron (src/app.py lines 166-251 and 550-670) -/

/-- Python len(v): strings, lists and dicts have a length, the rest raise. -/
def pyLen : PyVal → Except PyErr Nat
  | .str s => .ok s.length
  | .list xs => .ok xs.length
  | .dict kvs => .ok kvs.length
  | _ => .error .typeError

/-- Python iteration over a value: list elements, dict keys, string
characters; anything else raises TypeError. -/
def pyIter : PyVal → Except PyErr (List PyVal)
  | .list xs => .ok xs
  | .dict kvs => .ok (kvs.map fun kv => .str kv.1)
  | .str s => .ok (s.map fun c => .str [c])
  | _ => .error .typeError

/-- str(e) for a caught exception, rendered representatively. -/
def pyErrStr : PyErr → List Char
  | .attributeError => "AttributeError".toList
  | .typeError => "TypeError".toList
  | .valueError => "ValueError".toList
  | .runtimeError msg => msg
  | .httpError => "HTTPError".toList

/-- fetch_leads_for_reactivation: empty list when the CRM or the Reengajar
status id is unconfigured, otherwise one GET whose body's _embedded.leads is
returned. -/
def fetch_leads_for_reactivation (cfg : Config) (o : Oracle) :
    List Eff × Except PyErr PyVal :=
  if cfg.kommoDomain.isEmpty || cfg.kommoToken.isEmpty then ([], .ok (.list []))
  else
    match cfg.getenv ("KOMMO_STATUS_REENGAJAR".toList) with
    | Option.none => ([], .ok (.list []))
    | some sid =>
      if sid.isEmpty then ([], .ok (.list []))
      else
        match pyIntParse sid with
        | Option.none => ([], .error .valueError)
        | some n =>
          match o.leadsBody with
          | .error e => ([.leadsGet n], .error e)
          | .ok body =>
            ([.leadsGet n], do
              let embedded ← pyGetD body ("_embedded".toList) (.dict [])
              let leads ← pyGetD embedded ("leads".toList) (.list [])
              let _ ← pyLen leads
              pure leads)

/-- build_lead_context_text: the six context lines sent to the assistant in
reactivation mode. -/
def build_lead_context_text (lead : PyVal) : Except PyErr (List Char) := do
  let lead_id ← pyGet lead ("id".toList)
  let name0 ← pyGet lead ("name".toList)
  let name := pyOr name0 (.str ("Cliente".toList))
  let status_id ← pyGet lead ("status_id".toList)
  let price ← pyGet lead ("price".toList)
  let created_at ← pyGet lead ("created_at".toList)
  let updated_at ← pyGet lead ("updated_at".toList)
  pure (("Lead ID: ".toList) ++ pyStr lead_id ++
    ("\nNome exibido do lead: ".toList) ++ pyStr name ++
    ("\nStatus_id atual no Kommo: ".toList) ++ pyStr status_id ++
    ("\nValor (se houver): ".toList) ++ pyStr price ++
    ("\nCriado em (timestamp): ".toList) ++ pyStr created_at ++
    ("\nÚltima atualização (timestamp): ".toList) ++ pyStr updated_at)

/-- The fixed reactivation instructions prepended to each lead's context. -/
def CRON_INSTRUCTIONS : List Char :=
  ("Erika, agora você está em MODO REATIVAÇÃO DE LEADS.\n\nVocê receberá dados de um lead TecBrilho + um pequeno contexto.\nSuas tarefas para ESTE lead específico são:\n1) Decidir se vale a pena reativar agora.\n2) Se sim, escrever uma mensagem humana e gentil que será enviada via WhatsApp,\n   retomando a conversa de forma natural.\n3) SEMPRE devolver no final um bloco ERIKA_ACTION neste formato:\n### ERIKA_ACTION\n\x7b\n  \"should_reactivate\": true ou false,\n  \"kommo_suggested_stage\": \"Reengajar\" ou outra etapa válida,\n  \"summary_note\": \"Resumo curto da sua decisão.\"\n\x7d\n### END_ERIKA_ACTION\n").toList

/-- The user message sent to the assistant for one reactivation lead. -/
def cron_user_message (context_text : List Char) : List Char :=
  CRON_INSTRUCTIONS ++ ("\n\nA seguir estão os dados e contexto do lead:\n\n".toList) ++
    context_text ++ ("\n\nCom base nisso, aja conforme as instruções acima.".toList)

/-- The canned reactivation opener used when the visible text is empty. -/
def CRON_FALLBACK_VISIBLE : List Char :=
  ("Oi, tudo bem? Aqui é a Erika, da TecBrilho. Passei pra saber se ainda faz sentido pra você cuidar daquele serviço no seu carro. 🙂").toList

/-- send_whatsapp_via_kommo: the safe-mode placeholder that records the
delivery attempt and writes the would-be WhatsApp text as a note; note
failures are swallowed. -/
def send_whatsapp_via_kommo (cfg : Config) (o : Oracle) (lead : PyVal) (text : List Char) :
    List Eff × Except PyErr Unit :=
  match pyGet lead ("id".toList) with
  | .error e => ([.whatsappSend lead text], .error e)
  | .ok lead_id =>
    if !pyTruthy lead_id then ([.whatsappSend lead text], .ok ())
    else
      let (e1, _) := add_kommo_note cfg o lead_id (("[MENSAGEM PARA WHATSAPP]\n".toList) ++ text)
      (.whatsappSend lead text :: e1, .ok ())

/-- One entry of the cron response's details list. -/
inductive Detail where
  | entry (lead_id : PyVal) (should_reactivate : Bool) (suggested_stage summary_note : PyVal)
  | err (lead_id : PyVal) (msg : List Char)

/-- The HTTP-level result of the cron endpoint. -/
inductive CronOut where
  | ok (details : List Detail)
  | httpErr (code : Nat)
  | crash (e : PyErr)

/-- The stripped-or-empty visible text of the cron loop (line 615). -/
def cron_visible1 (visible0 : List Char) : List Char :=
  if !visible0.isEmpty then pyStrip visible0 else []

/-- The visible text actually delivered by the cron loop: the canned opener
when the stripped text is empty (lines 615-620). -/
def cron_visible (visible0 : List Char) : List Char :=
  if (cron_visible1 visible0).isEmpty then CRON_FALLBACK_VISIBLE else cron_visible1 visible0

/-- The (should_reactivate, suggested_stage, summary_note) triple read from
the action when it is a truthy dict (lines 622-629). -/
def cron_action_fields (action : PyVal) : Bool × PyVal × PyVal :=
  if pyTruthy action && isDict action then
    (pyTruthy (dictGetVal action ("should_reactivate".toList)),
     dictGetVal action ("kommo_suggested_stage".toList),
     dictGetVal action ("summary_note".toList))
  else (false, .none, .none)

/-- The effects of the summary-note step, whose own try swallows failures
(lines 632-636). -/
def cron_summary_effs (cfg : Config) (o : Oracle) (lead_id sn : PyVal) : List Eff :=
  if pyTruthy sn then
    (add_kommo_note cfg o lead_id (("[ERIKA REATIVAÇÃO]\n".toList) ++ pyStr sn)).1
  else []

/-- The effects of the reactivation step: WhatsApp send then stage update,
each swallowing its failures (lines 639-646). -/
def cron_react_effs (cfg : Config) (o : Oracle) (lead lead_id : PyVal)
    (visible : List Char) (sr : Bool) (ss : PyVal) : List Eff :=
  if sr then
    (send_whatsapp_via_kommo cfg o lead visible).1 ++
      (if pyTruthy ss then (update_lead_stage cfg o lead_id ss).1 else [])
  else []

/-- The body of the cron loop's try block for one lead: context build,
assistant call, output split, fallback visible text, summary note (its own
try), WhatsApp send and stage update (its own try) when reactivating. -/
def cron_try_body (cfg : Config) (o : Oracle) (lead lead_id : PyVal) :
    List Eff × Except PyErr Detail :=
  match build_lead_context_text lead with
  | .error e => ([], .error e)
  | .ok context_text =>
    match call_openai_erika cfg o (.str (cron_user_message context_text)) lead_id .none with
    | (eA, .error e) => (eA, .error e)
    | (eA, .ok raw) =>
      (eA ++
         cron_summary_effs cfg o lead_id (cron_action_fields (split_erika_output raw).2).2.2 ++
         cron_react_effs cfg o lead lead_id (cron_visible (split_erika_output raw).1)
           (cron_action_fields (split_erika_output raw).2).1
           (cron_action_fields (split_erika_output raw).2).2.1,
       .ok (.entry lead_id (cron_action_fields (split_erika_output raw).2).1
         (cron_action_fields (split_erika_output raw).2).2.1
         (cron_action_fields (split_erika_output raw).2).2.2))

/-- One iteration of the cron loop: the id read is outside the try block, a
falsy id skips the lead with no entry, and any exception escaping the try
body becomes an error entry carrying str(e). -/
def cron_process_lead (cfg : Config) (o : Oracle) (lead : PyVal) :
    List Eff × Except PyErr (Option Detail) :=
  match pyGet lead ("id".toList) with
  | .error e => ([], .error e)
  | .ok lead_id =>
    if !pyTruthy lead_id then ([], .ok Option.none)
    else
      match cron_try_body cfg o lead lead_id with
      | (effs, .ok d) => (effs, .ok (some d))
      | (effs, .error e) => (effs, .ok (some (.err lead_id (pyErrStr e))))

/-- The cron loop over the fetched leads, accumulating effects and details;
an exception outside a try block aborts the whole endpoint. -/
def cron_loop (cfg : Config) (o : Oracle) : List PyVal → List Eff × Except PyErr (List Detail)
  | [] => ([], .ok [])
  | l :: rest =>
    match cron_process_lead cfg o l with
    | (e1, .error e) => (e1, .error e)
    | (e1, .ok od) =>
      match cron_loop cfg o rest with
      | (e2, .error e) => (e1 ++ e2, .error e)
      | (e2, .ok ds) =>
        (e1 ++ e2, .ok (match od with | some d => d :: ds | Option.none => ds))

/-- cron_reactivar: shared-secret check (500 unconfigured, 401 mismatch),
lead fetch (500 on failure), then the per-lead loop whose failures are
collected as error entries. -/
def cron_reactivar (cfg : Config) (o : Oracle) (x_cron_key : Option (List Char)) :
    List Eff × CronOut :=
  let secret := (cfg.getenv ("CRON_SECRET".toList)).getD []
  if secret.isEmpty then ([], .httpErr 500)
  else
    match x_cron_key with
    | Option.none => ([], .httpErr 401)
    | some k =>
      if k ≠ secret then ([], .httpErr 401)
      else
        match fetch_leads_for_reactivation cfg o with
        | (eF, .error _) => (eF, .httpErr 500)
        | (eF, .ok leads) =>
          if !pyTruthy leads then (eF, .ok [])
          else
            match pyIter leads with
            | .error e => (eF, .crash e)
            | .ok ls =>
              match cron_loop cfg o ls with
              | (eL, .error e) => (eF ++ eL, .crash e)
              | (eL, .ok ds) => (eF ++ eL, .ok ds)

/-! ## Synchronous widget callback (modelled from the spec) -/

/-- Modelled from the spec: the normalized synchronous widget-callback
variant of an inbound event (spec 4.2), which src/app.py does not contain.
It carries a correlation token, a callback return address, and the message
text and lead id drawn from its data block. -/
structure WidgetEvent where
  token : List Char
  returnUrl : List Char
  messageText : PyVal
  leadId : PyVal

/-- Modelled from the spec: the fixed apologetic fallback message delivered
to the callback address when the assistant call fails (spec 4.4 rule 4; its
exact wording is not given by the spec). -/
def WIDGET_FALLBACK : List Char :=
  ("Desculpe, tive um problema para processar sua mensagem agora. Pode tentar novamente em instantes?").toList

/-- Modelled from the spec: the widget-callback branch of the handler
(spec 4.2, 4.4 rule 4, sections 6 and 7), absent from src/app.py. On
assistant failure the fixed fallback is posted to the caller's return
address and the response is a 200, never a 500; on success the visible
reply is posted to the return address regardless of note/stage outcomes. -/
def widget_webhook (cfg : Config) (o : Oracle) (ev : WidgetEvent) : List Eff × Outcome :=
  let (eA, rA) := call_openai_erika cfg o ev.messageText ev.leadId .none
  match rA with
  | .error _ =>
    (eA ++ [.widgetPost ev.returnUrl WIDGET_FALLBACK],
     .resp (.ok ev.leadId WIDGET_FALLBACK .none))
  | .ok raw =>
    let (visible, action) := split_erika_output raw
    let reply := webhook_reply_text visible
    (eA ++ webhook_notes_phase cfg o ev.leadId reply action ++ [.widgetPost ev.returnUrl reply],
     .resp (.ok ev.leadId reply action))

/-! ## PhoneExtractor (modelled from the spec) -/

/-- Try the phone pattern (optional leading plus, 11 to 15 digits, greedy)
at the start of the text; on success also return the rest of the input. -/
def phoneMatchAt (s : List Char) : Option (List Char × List Char) :=
  match s with
  | '+' :: rest =>
    let ds := (rest.takeWhile isDig).take 15
    if ds.length ≥ 11 then some ('+' :: ds, rest.drop ds.length) else Option.none
  | _ =>
    let ds := (s.takeWhile isDig).take 15
    if ds.length ≥ 11 then some (ds, s.drop ds.length) else Option.none

/-- Left-to-right non-overlapping scan for phone-pattern matches. -/
def phoneScan : Nat → List Char → List (List Char)
  | 0, _ => []
  | _, [] => []
  | Nat.succ fuel, c :: rest =>
    match phoneMatchAt (c :: rest) with
    | some (m, r2) => m :: phoneScan fuel r2
    | Option.none => phoneScan fuel rest

/-- All phone-pattern matches in a text. -/
def phoneMatches (s : List Char) : List (List Char) := phoneScan s.length s

/-- First longest element, as Python max(matches, key=len). -/
def longestMatch : List (List Char) → Option (List Char)
  | [] => Option.none
  | m :: rest =>
    some (rest.foldl (fun best x => if x.length > best.length then x else best) m)

/-- Modelled from the spec: PhoneExtractor step 2, the vendor-specific
prefixed-phone pattern (the spec does not name the prefix, so it is a
parameter): locate the prefix and return the digit run after it. -/
def vendorPhoneStep (vendorPref s : List Char) : Option (List Char) :=
  if vendorPref.isEmpty then Option.none
  else
    match pyRfind s vendorPref with
    | some i =>
      let ds := (s.drop (i + vendorPref.length)).takeWhile isDig
      if ds.isEmpty then Option.none else some ds
    | Option.none => Option.none

/-- Phone-related key-name tokens of PhoneExtractor step 3. -/
def phoneKeyTokens : List (List Char) :=
  ["phone".toList, "telefone".toList, "mobile".toList, "value".toList, "tel".toList]

/-- A key name contains a phone-related token. -/
def keyIsPhoneToken (k : List Char) : Bool :=
  phoneKeyTokens.any fun t => containsSub k t

/-- Lengths of the maximal digit runs of a text. -/
def digitRunsAux : List Char → Nat → List Nat
  | [], 0 => []
  | [], Nat.succ n => [Nat.succ n]
  | c :: rest, acc =>
    if isDig c then digitRunsAux rest (acc + 1)
    else if acc = 0 then digitRunsAux rest 0
    else acc :: digitRunsAux rest 0

/-- The text contains a digit run of the expected phone length (11-15). -/
def hasPhoneDigitRun (s : List Char) : Bool :=
  (digitRunsAux s 0).any fun n => 11 ≤ n ∧ n ≤ 15

/-- Modelled from the spec: PhoneExtractor step 3, the recursive walk over
mapping and sequence nodes returning the first string value under a
phone-related key that contains a digit run of the expected length. -/
def phoneKeyWalk : PyVal → Option (List Char)
  | .dict kvs => walkKvs kvs
  | .list xs => walkList xs
  | _ => Option.none
where
  walkKvs : List (List Char × PyVal) → Option (List Char)
  | [] => Option.none
  | (k, v) :: rest =>
    if keyIsPhoneToken k then
      match v with
      | .str s =>
        if hasPhoneDigitRun s then some s else walkKvs rest
      | _ =>
        match phoneKeyWalk v with
        | some r => some r
        | Option.none => walkKvs rest
    else
      match phoneKeyWalk v with
      | some r => some r
      | Option.none => walkKvs rest
  walkList : List PyVal → Option (List Char)
  | [] => Option.none
  | v :: rest =>
    match phoneKeyWalk v with
    | some r => some r
    | Option.none => walkList rest

/-- Modelled from the spec: PhoneExtractor step 4, normalization of a raw
step-3 candidate to international form for a configurable country code. -/
def normalizePhone (countryCode raw : List Char) : List Char :=
  let digits := raw.filter isDig
  if digits.take countryCode.length = countryCode then '+' :: digits
  else '+' :: countryCode ++ digits

/-- Modelled from the spec: extractPhone (spec 4.1), which is part of the
repository's other app variants but absent from src/app.py (the src webhook
only reads contact.phones[0]). Steps in priority order: regex scan of the
serialized payload with longest match winning, vendor-prefixed pattern,
recursive key walk with normalization, else null. -/
def extractPhone (vendorPref countryCode : List Char) (payload : PyVal) :
    Option (List Char) :=
  match longestMatch (phoneMatches (pyRepr payload)) with
  | some m => some m
  | Option.none =>
    match vendorPhoneStep vendorPref (pyRepr payload) with
    | some ds => some ds
    | Option.none =>
      match phoneKeyWalk payload with
      | some raw => some (normalizePhone countryCode raw)
      | Option.none => Option.none

/-- `i` is the index of the last occurrence of `sub` in `s`: it occurs there
and nowhere later. -/
def lastOccurrence (s sub : List Char) (i : Nat) : Prop :=
  occursAt s sub i ∧ ∀ j, occursAt s sub j → j ≤ i

/-! ## Concrete fixtures used to evaluate the embedding -/

/-- A fully-configured environment with no subdomain allow-list. -/
def cfgA : Config where
  kommoDomain := ("https://tb.kommo.com").toList
  kommoToken := ("tok").toList
  authorizedSubdomain := []
  erikaAssistantId := ("asst1").toList
  getenv := fun k =>
    if k = ("CRON_SECRET").toList then some (("s3cret").toList)
    else if k = ("KOMMO_STATUS_REENGAJAR").toList then some (("77").toList)
    else if k = ("KOMMO_STATUS_CONTATO_EM_ANDAMENTO").toList then some (("88").toList)
    else Option.none

/-- Same environment with no CRM token. -/
def cfgNoToken : Config := { cfgA with kommoToken := [] }

/-- Same environment with a subdomain allow-list. -/
def cfgAuth : Config := { cfgA with authorizedSubdomain := ("tecbrilho").toList }

/-- A raw assistant reply carrying a summary note and a suggested stage. -/
def RAW_SUMMARY : List Char :=
  ("Olá!### ERIKA_ACTION\n\x7b\"summary_note\": \"resumo\", \"kommo_suggested_stage\": \"Contato em Andamento\"\x7d\n### END_ERIKA_ACTION").toList

/-- The action value parsed from RAW_SUMMARY. -/
def ACTION_SUMMARY_VAL : PyVal :=
  .dict [(("summary_note").toList, .str (("resumo").toList)),
         (("kommo_suggested_stage").toList, .str (("Contato em Andamento").toList))]

/-- A raw assistant reply deciding to reactivate a lead. -/
def RAW_REACT : List Char :=
  ("Oi de novo!### ERIKA_ACTION\n\x7b\"should_reactivate\": true, \"kommo_suggested_stage\": \"Contato em Andamento\", \"summary_note\": \"vale reativar\"\x7d\n### END_ERIKA_ACTION").toList

/-- Collaborators that always succeed, replying with RAW_SUMMARY. -/
def oracleOk : Oracle where
  erika := fun _ _ _ => .ok RAW_SUMMARY
  notePost := fun _ _ => true
  stagePatch := fun _ _ => true
  leadsBody := .ok (.dict [])
  widgetPost := fun _ _ => true

/-- Collaborators whose note POST always fails with an HTTP error. -/
def oracleNoteFail : Oracle := { oracleOk with notePost := fun _ _ => false }

/-- Collaborators whose assistant call fails. -/
def oracleErikaFail : Oracle := { oracleOk with erika := fun _ _ _ => .error .httpError }

/-- A JSON payload with a message text and a lead id. -/
def payloadMsgLead : PyVal :=
  .dict [(("data").toList,
    .dict [(("message").toList, .dict [(("text").toList, .str (("Oi").toList))]),
           (("lead").toList, .dict [(("id").toList, .int 42)])])]

/-- A second such payload, with a different text and lead. -/
def payloadMsgLead2 : PyVal :=
  .dict [(("data").toList,
    .dict [(("message").toList, .dict [(("text").toList, .str (("Olá").toList))]),
           (("lead").toList, .dict [(("id").toList, .int 43)])])]

/-- A payload with no message text whose lead field is a truthy non-dict. -/
def payloadLeadStr : PyVal := .dict [(("lead").toList, .str (("x").toList))]

/-- The empty payload. -/
def payloadEmpty : PyVal := .dict []

/-- A payload from an unauthorized subdomain. -/
def payloadBadSub : PyVal :=
  .dict [(("account").toList, .dict [(("subdomain").toList, .str (("evil").toList))])]

/-- Three reactivation leads. -/
def leadOne : PyVal :=
  .dict [(("id").toList, .int 1), (("name").toList, .str (("Ana").toList))]

/-- Second reactivation lead. -/
def leadTwo : PyVal := .dict [(("id").toList, .int 2)]

/-- Third reactivation lead. -/
def leadThree : PyVal := .dict [(("id").toList, .int 3)]

/-- Collaborators for the cron batch: the assistant fails for lead 2 only,
and the CRM returns the three leads above. -/
def oracleCron : Oracle where
  erika := fun _ l _ =>
    match l with
    | .int 2 => .error .httpError
    | _ => .ok RAW_REACT
  notePost := fun _ _ => true
  stagePatch := fun _ _ => true
  leadsBody := .ok (.dict [(("_embedded").toList,
    .dict [(("leads").toList, .list [leadOne, leadTwo, leadThree])])])
  widgetPost := fun _ _ => true

/-- A concrete synchronous widget event. -/
def widgetEv : WidgetEvent where
  token := ("t1").toList
  returnUrl := ("https://x").toList
  messageText := .str (("hi").toList)
  leadId := .int 7

/-! ## Characterization of str.rfind -/

theorem occursAt_sub_length_le {s sub : List Char} {i : Nat} (h : occursAt s sub i) :
    sub.length ≤ s.length - i := by
  unfold occursAt at h
  have h2 := congrArg List.length h
  simp only [List.length_take, List.length_drop] at h2
  omega

theorem rfindAux_last {s sub : List Char} {i : Nat} (hi : occursAt s sub i)
    (hmax : ∀ j, occursAt s sub j → j ≤ i) :
    ∀ n, i ≤ n → rfindAux s sub n = some i := by
  intro n
  induction n with
  | zero =>
    intro h0
    have hi0 : i = 0 := Nat.le_zero.mp h0
    subst hi0
    simp only [rfindAux, if_pos hi]
  | succ n ih =>
    intro hin
    by_cases hc : occursAt s sub (Nat.succ n)
    · have h1 := hmax _ hc
      have h2 : i = Nat.succ n := Nat.le_antisymm hin h1
      subst h2
      simp only [rfindAux, if_pos hc]
    · have hne : i ≠ Nat.succ n := fun he => hc (he ▸ hi)
      simp only [rfindAux, if_neg hc]
      exact ih (by omega)

theorem pyRfind_of_lastOccurrence {s sub : List Char} {i : Nat} (hsub : sub ≠ [])
    (h : lastOccurrence s sub i) : pyRfind s sub = some i := by
  obtain ⟨hi, hmax⟩ := h
  have hlen := occursAt_sub_length_le hi
  have hpos : 0 < sub.length := List.length_pos.mpr hsub
  exact rfindAux_last hi hmax s.length (by omega)

theorem rfindAux_none_of {s sub : List Char} (h : ∀ j, ¬ occursAt s sub j) :
    ∀ n, rfindAux s sub n = Option.none := by
  intro n
  induction n with
  | zero => simp only [rfindAux, if_neg (h 0)]
  | succ n ih => simp only [rfindAux, if_neg (h (Nat.succ n)), ih]

theorem pyRfind_of_noOccurrence {s sub : List Char} (h : ∀ j, ¬ occursAt s sub j) :
    pyRfind s sub = Option.none :=
  rfindAux_none_of h s.length

theorem rfindAux_sound {s sub : List Char} :
    ∀ n i, rfindAux s sub n = some i →
      occursAt s sub i ∧ i ≤ n ∧ ∀ j, j ≤ n → occursAt s sub j → j ≤ i := by
  intro n
  induction n with
  | zero =>
    intro i h
    simp only [rfindAux] at h
    split at h
    · obtain rfl : (0 : Nat) = i := Option.some.inj h
      exact ⟨by assumption, Nat.le_refl 0, fun j hj _ => hj⟩
    · exact absurd h (by simp)
  | succ n ih =>
    intro i h
    simp only [rfindAux] at h
    split at h
    · obtain rfl : Nat.succ n = i := Option.some.inj h
      exact ⟨by assumption, Nat.le_refl _, fun j hj _ => hj⟩
    · obtain ⟨h1, h2, h3⟩ := ih i h
      refine ⟨h1, by omega, fun j hj hocc => ?_⟩
      rcases Nat.lt_succ_iff_lt_or_eq.mp (Nat.lt_succ_of_le hj) with hlt | heq
      · exact h3 j (by omega) hocc
      · exact absurd hocc (heq ▸ (by assumption))

theorem lastOccurrence_of_pyRfind {s sub : List Char} {i : Nat} (hsub : sub ≠ [])
    (h : pyRfind s sub = some i) : lastOccurrence s sub i := by
  obtain ⟨h1, _, h3⟩ := rfindAux_sound s.length i h
  refine ⟨h1, fun j hj => ?_⟩
  by_cases hle : j ≤ s.length
  · exact h3 j hle hj
  · have hlen := occursAt_sub_length_le hj
    have hpos : 0 < sub.length := List.length_pos.mpr hsub
    omega

theorem rfindAux_none_sound {s sub : List Char} :
    ∀ n, rfindAux s sub n = Option.none → ∀ j, j ≤ n → ¬ occursAt s sub j := by
  intro n
  induction n with
  | zero =>
    intro h j hj
    obtain rfl : j = 0 := Nat.le_zero.mp hj
    simp only [rfindAux] at h
    split at h
    · exact absurd h (by simp)
    · assumption
  | succ n ih =>
    intro h j hj
    simp only [rfindAux] at h
    split at h
    · exact absurd h (by simp)
    · rcases Nat.lt_succ_iff_lt_or_eq.mp (Nat.lt_succ_of_le hj) with hlt | heq
      · exact ih h j (by omega)
      · exact heq ▸ (by assumption)

theorem noOccurrence_of_pyRfind {s sub : List Char} (hsub : sub ≠ [])
    (h : pyRfind s sub = Option.none) : ∀ j, ¬ occursAt s sub j := by
  intro j hj
  have hlen := occursAt_sub_length_le hj
  have hpos : 0 < sub.length := List.length_pos.mpr hsub
  exact rfindAux_none_sound s.length h j (by omega) hj

theorem occursAt_ne_nil {s sub : List Char} {i : Nat} (hsub : sub ≠ [])
    (h : occursAt s sub i) : s ≠ [] := by
  intro h0
  have hlen := occursAt_sub_length_le h
  have hpos : 0 < sub.length := List.length_pos.mpr hsub
  rw [h0] at hlen
  simp only [List.length_nil] at hlen
  omega

theorem split_eq_of_rfind_some {s : List Char} {i : Nat} (hne : s ≠ [])
    (hrf : pyRfind s ACTION_START = some i) :
    split_erika_output s = (pyRstrip (s.take i), erika_parse (erika_candidate s i)) := by
  unfold split_erika_output
  rw [if_neg hne, hrf]

/-! ## Claim C1 -/

/-- C1 (amended): with at least one start sentinel, split_erika_output takes
the last start-sentinel occurrence, right-trims everything before it as the
visible text, and strips everything between that sentinel and the (last)
end sentinel, or the end of the string when the end sentinel is absent, as
the candidate action block; an empty candidate yields a null action. With no
start sentinel the whole text, stripped of leading and trailing whitespace,
is visible and the action is null. -/
theorem splitOutput_sentinel_spec (s : List Char) :
    (∀ i, lastOccurrence s ACTION_START i →
      (split_erika_output s).1 = pyRstrip (s.take i) ∧
      (split_erika_output s).2 = erika_parse (erika_candidate s i) ∧
      (∀ e, lastOccurrence (s.drop (i + ACTION_START.length)) ACTION_END e →
        erika_candidate s i = pyStrip ((s.drop (i + ACTION_START.length)).take e)) ∧
      ((∀ j, ¬ occursAt (s.drop (i + ACTION_START.length)) ACTION_END j) →
        erika_candidate s i = pyStrip (s.drop (i + ACTION_START.length))) ∧
      (erika_candidate s i = [] → (split_erika_output s).2 = PyVal.none)) ∧
    ((∀ j, ¬ occursAt s ACTION_START j) →
      split_erika_output s = (pyStrip s, PyVal.none)) := by
  constructor
  · intro i hlast
    have hsub : ACTION_START ≠ [] := by decide
    have hrf := pyRfind_of_lastOccurrence hsub hlast
    have hne : s ≠ [] := occursAt_ne_nil hsub hlast.1
    rw [split_eq_of_rfind_some hne hrf]
    refine ⟨rfl, rfl, ?_, ?_, ?_⟩
    · intro e he
      have hsubE : ACTION_END ≠ [] := by decide
      have hrfE := pyRfind_of_lastOccurrence hsubE he
      unfold erika_candidate
      rw [hrfE]
    · intro hnone
      have hrfE := pyRfind_of_noOccurrence hnone
      unfold erika_candidate
      rw [hrfE]
    · intro hc
      simp [erika_parse, hc]
  · intro hno
    by_cases hne : s = []
    · subst hne; rfl
    · unfold split_erika_output
      rw [if_neg hne, pyRfind_of_noOccurrence hno]

/-- C1 counterexample: the input consisting of a space, the word hi and a
space contains no start sentinel, yet split_erika_output does not return
the entire text as visible — it strips the surrounding whitespace. -/
theorem splitOutput_wholeText_cex :
    (∀ j, ¬ occursAt ((" hi ").toList) ACTION_START j) ∧
    (split_erika_output ((" hi ").toList)).1 ≠ (" hi ").toList := by
  exact ⟨noOccurrence_of_pyRfind (by decide) (by decide), by decide⟩

/-- C1 witness: the amended specification evaluated on concrete inputs with
and without a start sentinel. -/
theorem splitOutput_sentinel_spec_witness :
    (split_erika_output (("Hello### ERIKA_ACTION").toList)).1 = ("Hello").toList ∧
    (split_erika_output (("Hello### ERIKA_ACTION").toList)).2 = PyVal.none ∧
    split_erika_output ((" oi ").toList) = (("oi").toList, PyVal.none) := by
  have hlast : lastOccurrence (("Hello### ERIKA_ACTION").toList) ACTION_START 5 :=
    lastOccurrence_of_pyRfind (by decide) (by decide)
  obtain ⟨h1, _, _, _, h5⟩ :=
    (splitOutput_sentinel_spec (("Hello### ERIKA_ACTION").toList)).1 5 hlast
  refine ⟨h1.trans (by decide), h5 (by decide), ?_⟩
  have h6 := (splitOutput_sentinel_spec ((" oi ").toList)).2
    (noOccurrence_of_pyRfind (by decide) (by decide))
  exact h6.trans (by rfl)

/-! ## Claim C2 -/

/-- C2: when the raw output contains the start sentinel but the candidate
action block is not valid JSON, split_erika_output still returns the
right-trimmed prefix as visible text with a null action, and raises no
exception (it is a total function whose json.JSONDecodeError is caught). -/
theorem splitOutput_malformed_spec (s : List Char) (i : Nat) (err : List Char)
    (h1 : lastOccurrence s ACTION_START i)
    (h2 : jsonLoads (erika_candidate s i) = .error err) :
    (split_erika_output s).1 = pyRstrip (s.take i) ∧
    (split_erika_output s).2 = PyVal.none := by
  have hsub : ACTION_START ≠ [] := by decide
  have hrf := pyRfind_of_lastOccurrence hsub h1
  have hne : s ≠ [] := occursAt_ne_nil hsub h1.1
  rw [split_eq_of_rfind_some hne hrf]
  refine ⟨rfl, ?_⟩
  by_cases hc : erika_candidate s i = []
  · simp [erika_parse, hc]
  · simp [erika_parse, hc, h2]

theorem exBind_ok {ε α β : Type} (v : α) (f : α → Except ε β) :
    (Except.ok (ε := ε) v >>= f) = f v := rfl

theorem exBind_err {ε α β : Type} (e : ε) (f : α → Except ε β) :
    ((Except.error e : Except ε α) >>= f) = Except.error e := rfl

theorem listIsEmpty_false_of_ne {α : Type} {l : List α} (h : l ≠ []) :
    l.isEmpty = false := by
  cases l with
  | nil => exact absurd rfl h
  | cons a t => rfl

/-! ## Claim C9 -/

/-- C9: with an allow-list configured and a truthy inbound subdomain that
differs from it, the handler answers 401 with no side effects; with no
allow-list configured, or with a falsy (absent) inbound subdomain, the
handler proceeds exactly as the rest of the pipeline. -/
theorem webhook_subdomain_auth_spec (cfg : Config) (o : Oracle) (payload v : PyVal) :
    (cfg.authorizedSubdomain ≠ [] → subdomain_of payload = .ok v → pyTruthy v = true →
      pyEqStr v cfg.authorizedSubdomain = false →
      kommo_webhook cfg o payload = ([], .resp (.httpErr 401))) ∧
    (cfg.authorizedSubdomain = [] →
      kommo_webhook cfg o payload = webhook_after_auth cfg o payload) ∧
    (subdomain_of payload = .ok v → pyTruthy v = false →
      kommo_webhook cfg o payload = webhook_after_auth cfg o payload) := by
  refine ⟨?_, ?_, ?_⟩
  · intro hne hsd htr heq
    have hie := listIsEmpty_false_of_ne hne
    have hval : webhook_auth_fails cfg payload = .ok true := by
      simp only [webhook_auth_fails, hie, Bool.false_eq_true, if_false, hsd, exBind_ok,
        htr, heq, Bool.not_false, Bool.and_true]
      rfl
    simp only [kommo_webhook, hval]
  · intro h0
    have hie : cfg.authorizedSubdomain.isEmpty = true := by rw [h0]; rfl
    have hval : webhook_auth_fails cfg payload = .ok false := by
      simp only [webhook_auth_fails, hie, if_true]
    simp only [kommo_webhook, hval]
  · intro hsd htr
    have hval : webhook_auth_fails cfg payload = .ok false := by
      simp only [webhook_auth_fails, hsd, exBind_ok, htr, Bool.false_and]
      split <;> rfl
    simp only [kommo_webhook, hval]

/-- C9 witness: a mismatched subdomain yields a 401 with no effects, and an
unconfigured allow-list proceeds with the pipeline. -/
theorem webhook_subdomain_auth_spec_witness :
    kommo_webhook cfgAuth oracleOk payloadBadSub = ([], .resp (.httpErr 401)) ∧
    kommo_webhook cfgA oracleOk payloadMsgLead =
      webhook_after_auth cfgA oracleOk payloadMsgLead := by
  constructor
  · exact (webhook_subdomain_auth_spec cfgAuth oracleOk payloadBadSub
      (.str (("evil").toList))).1 (by decide) rfl rfl rfl
  · exact (webhook_subdomain_auth_spec cfgA oracleOk payloadMsgLead PyVal.none).2.1 rfl

/-! ## Claim C10 -/

theorem add_kommo_note_noToken (cfg : Config) (o : Oracle) (lid : PyVal) (t : List Char)
    (h : cfg.kommoToken = []) : add_kommo_note cfg o lid t = ([], .ok ()) := by
  have hie : cfg.kommoToken.isEmpty = true := by rw [h]; rfl
  simp only [add_kommo_note, hie, Bool.or_true, Bool.true_or, if_true]

theorem update_lead_stage_effects_noToken (cfg : Config) (o : Oracle) (l s : PyVal)
    (h : cfg.kommoToken = []) : (update_lead_stage cfg o l s).1 = [] := by
  have hie : cfg.kommoToken.isEmpty = true := by rw [h]; rfl
  simp only [update_lead_stage, hie, Bool.or_true, if_true]
  split
  · rfl
  · split
    · rfl
    · rfl
    · split
      · rfl
      · split
        · rfl
        · rfl

theorem webhook_notes_phase_noToken (cfg : Config) (o : Oracle) (lid : PyVal)
    (reply : List Char) (act : PyVal) (h : cfg.kommoToken = []) :
    webhook_notes_phase cfg o lid reply act = [] := by
  have hadd : ∀ t, add_kommo_note cfg o lid t = ([], .ok ()) :=
    fun t => add_kommo_note_noToken cfg o lid t h
  have hupd : ∀ s, (update_lead_stage cfg o lid s).1 = [] :=
    fun s => update_lead_stage_effects_noToken cfg o lid s h
  unfold webhook_notes_phase
  split
  · rfl
  · simp only [hadd]
    by_cases hact : (pyTruthy act && isDict act) = true
    · rw [if_pos hact]
      simp only [ite_self, List.nil_append]
      split
      · simp [hupd]
      · rfl
    · rw [if_neg hact]

/-- C10: add_kommo_note silently does nothing (no HTTP request, normal
return) when the lead id is falsy (absent or zero), the note text is empty,
or the CRM domain or token is unconfigured; consequently a processed event
with an unconfigured token still answers with the normal ok response while
its trace shows the assistant call and no note POST at all. -/
theorem add_kommo_note_guard_spec (cfg : Config) (o : Oracle) (lid : PyVal)
    (text : List Char) :
    ((pyTruthy lid = false ∨ text = [] ∨ cfg.kommoDomain = [] ∨ cfg.kommoToken = []) →
      add_kommo_note cfg o lid text = ([], .ok ())) ∧
    (∀ payload mtext ph raw,
      webhook_auth_fails cfg payload = .ok false →
      webhook_extract payload = .ok (mtext, lid, ph) →
      (pyStrip (pyStr mtext)).isEmpty = false →
      cfg.erikaAssistantId.isEmpty = false →
      o.erika mtext lid ph = .ok raw →
      cfg.kommoToken = [] →
      kommo_webhook cfg o payload =
        ([Eff.erikaCall mtext lid ph],
         .resp (.ok lid (webhook_reply_text (split_erika_output raw).1)
           (split_erika_output raw).2))) := by
  constructor
  · intro hdisj
    have hguard : (!pyTruthy lid || cfg.kommoDomain.isEmpty || cfg.kommoToken.isEmpty ||
        text.isEmpty) = true := by
      rcases hdisj with h | h | h | h
      · simp [h]
      · simp [h]
      · simp [h, List.isEmpty_iff]
      · simp [h, List.isEmpty_iff]
    simp only [add_kommo_note, hguard, if_true]
  · intro payload mtext ph raw hauth hex hmt haid hai htok
    rcases hsplit : split_erika_output raw with ⟨vis, act⟩
    simp only [kommo_webhook, hauth, webhook_after_auth, hex, hmt, Bool.false_eq_true,
      if_false, call_openai_erika, haid, hai, hsplit,
      webhook_notes_phase_noToken cfg o lid (webhook_reply_text vis) act htok,
      List.append_nil]

/-- C10 witness: the guard on a zero lead id, and a full webhook round trip
with an unconfigured token answering ok with no note in the trace. -/
theorem add_kommo_note_guard_spec_witness :
    add_kommo_note cfgA oracleOk (.int 0) (("hello").toList) = ([], .ok ()) ∧
    kommo_webhook cfgNoToken oracleOk payloadMsgLead =
      ([Eff.erikaCall (.str (("Oi").toList)) (.int 42) .none],
       .resp (.ok (.int 42) (("Olá!").toList) ACTION_SUMMARY_VAL)) := by
  constructor
  · exact (add_kommo_note_guard_spec cfgA oracleOk (.int 0) (("hello").toList)).1
      (Or.inl rfl)
  · have h := (add_kommo_note_guard_spec cfgNoToken oracleOk (.int 42) []).2
      payloadMsgLead (.str (("Oi").toList)) .none RAW_SUMMARY rfl rfl rfl rfl rfl rfl
    exact h.trans (by rfl)

/-! ## Claim C3 -/

/-- C3 counterexample: with a present lead id and an action carrying a
summary note, a failed reply-note write is caught by the single try block
around the whole note/stage sequence: the summary note is never attempted
(the trace holds exactly the assistant call and the one failed note POST)
and the response still reports the normal ok shape with no failure status. -/
theorem webhook_summaryNote_cex :
    kommo_webhook cfgA oracleNoteFail payloadMsgLead =
      ([Eff.erikaCall (.str (("Oi").toList)) (.int 42) .none,
        Eff.notePost 42 (("Erika 🧠:\nOlá!").toList)],
       .resp (.ok (.int 42) (("Olá!").toList) ACTION_SUMMARY_VAL)) ∧
    Eff.notePost 42 (("ERIKA_ACTION: resumo").toList) ∉
      (kommo_webhook cfgA oracleNoteFail payloadMsgLead).1 := by
  refine ⟨rfl, ?_⟩
  intro h
  rw [show (kommo_webhook cfgA oracleNoteFail payloadMsgLead).1 =
    [Eff.erikaCall (.str (("Oi").toList)) (.int 42) .none,
     Eff.notePost 42 (("Erika 🧠:\nOlá!").toList)] from rfl] at h
  rcases List.mem_cons.mp h with h1 | h1
  · exact Eff.noConfusion h1
  · rcases List.mem_cons.mp h1 with h2 | h2
    · have := (Eff.notePost.injEq _ _ _ _).mp h2
      exact absurd this.2 (by decide)
    · exact absurd h2 (List.not_mem_nil _)

/-- C3 (amended): when the step-1 reply note fails, the failure is caught
and logged so the handler still returns the normal ok response, but the
summary-note write and the stage update are skipped for that event: the
trace holds only the assistant call and the attempted reply note. -/
theorem webhook_replyNoteFailure_spec (cfg : Config) (o : Oracle)
    (payload mtext lid ph : PyVal) (raw : List Char) (e : PyErr)
    (hauth : webhook_auth_fails cfg payload = .ok false)
    (hex : webhook_extract payload = .ok (mtext, lid, ph))
    (hmt : (pyStrip (pyStr mtext)).isEmpty = false)
    (haid : cfg.erikaAssistantId.isEmpty = false)
    (hai : o.erika mtext lid ph = .ok raw)
    (hlid : pyTruthy lid = true)
    (hnote : (add_kommo_note cfg o lid
      (("Erika 🧠:\n").toList ++ webhook_reply_text (split_erika_output raw).1)).2 =
      .error e) :
    kommo_webhook cfg o payload =
      (Eff.erikaCall mtext lid ph ::
        (add_kommo_note cfg o lid
          (("Erika 🧠:\n").toList ++ webhook_reply_text (split_erika_output raw).1)).1,
       .resp (.ok lid (webhook_reply_text (split_erika_output raw).1)
         (split_erika_output raw).2)) := by
  rcases hsplit : split_erika_output raw with ⟨vis, act⟩
  rw [hsplit] at hnote
  rcases hadd : add_kommo_note cfg o lid (("Erika 🧠:\n").toList ++ webhook_reply_text vis)
    with ⟨e1, r1⟩
  rw [hadd] at hnote
  simp only at hnote
  subst hnote
  simp only [kommo_webhook, hauth, webhook_after_auth, hex, hmt, Bool.false_eq_true,
    if_false, call_openai_erika, haid, hai, hsplit, hadd, webhook_notes_phase, hlid,
    Bool.not_true, List.cons_append, List.nil_append]

/-- C3 witness: the amended behavior evaluated on a concrete event whose
reply-note POST fails while the action carries a summary and a stage. -/
theorem webhook_replyNoteFailure_spec_witness :
    kommo_webhook cfgA oracleNoteFail payloadMsgLead2 =
      ([Eff.erikaCall (.str (("Olá").toList)) (.int 43) .none,
        Eff.notePost 43 (("Erika 🧠:\nOlá!").toList)],
       .resp (.ok (.int 43) (("Olá!").toList) ACTION_SUMMARY_VAL)) := by
  have h := webhook_replyNoteFailure_spec cfgA oracleNoteFail payloadMsgLead2
    (.str (("Olá").toList)) (.int 43) .none RAW_SUMMARY .httpError
    rfl rfl rfl rfl rfl rfl rfl
  exact h.trans (by rfl)

/-! ## Claim C4 -/

/-- C4 counterexample: a payload with no message text anywhere whose lead
field is a truthy non-dict makes the handler crash with an AttributeError
(the framework's generic 500), not respond with status ignored. -/
theorem webhook_ignored_cex :
    webhook_data payloadLeadStr = .ok payloadLeadStr ∧
    extract_message_text payloadLeadStr = .ok (.str []) ∧
    kommo_webhook cfgA oracleOk payloadLeadStr = ([], .crash .attributeError) ∧
    (kommo_webhook cfgA oracleOk payloadLeadStr).2 ≠ .resp .ignored := by
  refine ⟨rfl, rfl, rfl, ?_⟩
  intro h
  rw [show (kommo_webhook cfgA oracleOk payloadLeadStr).2 = .crash .attributeError
    from rfl] at h
  exact Outcome.noConfusion h

/-- C4 (amended): for every payload that passes the subdomain check and
whose field extraction completes without an exception, an extracted message
text that strips to nothing makes the handler answer with status ignored
and perform no assistant call and no CRM write at all (empty trace). -/
theorem webhook_ignored_spec (cfg : Config) (o : Oracle) (payload mtext lid ph : PyVal)
    (hauth : webhook_auth_fails cfg payload = .ok false)
    (hex : webhook_extract payload = .ok (mtext, lid, ph))
    (hempty : (pyStrip (pyStr mtext)).isEmpty = true) :
    kommo_webhook cfg o payload = ([], .resp .ignored) := by
  simp only [kommo_webhook, hauth, webhook_after_auth, hex, hempty, if_true]

/-- C4 witness: the empty payload extracts an empty message text and is
ignored with an empty trace. -/
theorem webhook_ignored_spec_witness :
    kommo_webhook cfgA oracleOk payloadEmpty = ([], .resp .ignored) := by
  exact webhook_ignored_spec cfgA oracleOk payloadEmpty (.str []) .none .none rfl rfl rfl

/-! ## Effect-shape lemmas -/

theorem mem_call_effects {cfg : Config} {o : Oracle} {m l p : PyVal} {x : Eff}
    (h : x ∈ (call_openai_erika cfg o m l p).1) : x = Eff.erikaCall m l p := by
  unfold call_openai_erika at h
  split at h
  · simp at h
  · simpa using h

theorem mem_add_effects {cfg : Config} {o : Oracle} {lid : PyVal} {text : List Char}
    {x : Eff} (h : x ∈ (add_kommo_note cfg o lid text).1) :
    ∃ l, x = Eff.notePost l text := by
  unfold add_kommo_note at h
  split at h
  · simp at h
  · split at h
    · simp at h
    · exact ⟨_, by simpa using h⟩

theorem mem_update_effects {cfg : Config} {o : Oracle} {lid s : PyVal} {x : Eff}
    (h : x ∈ (update_lead_stage cfg o lid s).1) : ∃ l sid, x = Eff.stagePatch l sid := by
  unfold update_lead_stage at h
  split at h
  · simp at h
  · split at h
    · simp at h
    · simp at h
    · split at h
      · simp at h
      · split at h
        · simp at h
        · split at h
          · simp at h
          · split at h
            · simp at h
            · split at h
              · simp at h
              · exact ⟨_, _, by simpa using h⟩

theorem mem_fetch_effects {cfg : Config} {o : Oracle} {x : Eff}
    (h : x ∈ (fetch_leads_for_reactivation cfg o).1) : ∃ n, x = Eff.leadsGet n := by
  unfold fetch_leads_for_reactivation at h
  split at h
  · simp at h
  · split at h
    · simp at h
    · split at h
      · simp at h
      · split at h
        · simp at h
        · split at h
          · exact ⟨_, by simpa using h⟩
          · exact ⟨_, by simpa using h⟩

theorem mem_send_whatsapp_effects {cfg : Config} {o : Oracle} {lead : PyVal}
    {text : List Char} {x : Eff} (h : x ∈ (send_whatsapp_via_kommo cfg o lead text).1) :
    x = Eff.whatsappSend lead text ∨ ∃ l t, x = Eff.notePost l t := by
  unfold send_whatsapp_via_kommo at h
  split at h
  · exact Or.inl (by simpa using h)
  · split at h
    · exact Or.inl (by simpa using h)
    · rcases List.mem_cons.mp h with h1 | h1
      · exact Or.inl h1
      · rcases mem_add_effects h1 with ⟨l, rfl⟩
        exact Or.inr ⟨l, _, rfl⟩

/-- The reply text substituted at the caller's layer is never empty. -/
theorem webhook_reply_text_ne_nil (v : List Char) : webhook_reply_text v ≠ [] := by
  unfold webhook_reply_text
  split
  · rename_i hcond
    have h2 := (Bool.and_eq_true _ _).mp hcond
    intro h0
    rw [h0] at h2
    exact absurd h2.2 (by decide)
  · decide

theorem cron_visible_ne_nil (v : List Char) : cron_visible v ≠ [] := by
  unfold cron_visible
  split
  · decide
  · rename_i hc
    intro h0
    exact hc (by rw [h0]; rfl)

theorem whatsapp_try_body_ne_nil {cfg : Config} {o : Oracle} {lead lid ld : PyVal}
    {txt : List Char}
    (h : Eff.whatsappSend ld txt ∈ (cron_try_body cfg o lead lid).1) : txt ≠ [] := by
  unfold cron_try_body at h
  cases hb : build_lead_context_text lead with
  | error e => rw [hb] at h; simp at h
  | ok ctx =>
    rw [hb] at h
    simp only [] at h
    rcases hc : call_openai_erika cfg o (.str (cron_user_message ctx)) lid .none with ⟨eA, rA⟩
    rw [hc] at h
    have heA : eA = (call_openai_erika cfg o (.str (cron_user_message ctx)) lid .none).1 := by
      rw [hc]
    cases rA with
    | error e =>
      simp only [] at h
      rw [heA] at h
      exact Eff.noConfusion (mem_call_effects h)
    | ok raw =>
      simp only [] at h
      rcases List.mem_append.mp h with h1 | h1
      · rcases List.mem_append.mp h1 with h2 | h2
        · rw [heA] at h2
          exact Eff.noConfusion (mem_call_effects h2)
        · unfold cron_summary_effs at h2
          split at h2
          · rcases mem_add_effects h2 with ⟨l, h4⟩
            exact Eff.noConfusion h4
          · simp at h2
      · unfold cron_react_effs at h1
        split at h1
        · rcases List.mem_append.mp h1 with h3 | h3
          · rcases mem_send_whatsapp_effects h3 with h4 | ⟨l, t, h4⟩
            · have h5 := (Eff.whatsappSend.injEq _ _ _ _).mp h4
              rw [h5.2]
              exact cron_visible_ne_nil _
            · exact Eff.noConfusion h4
          · split at h3
            · rcases mem_update_effects h3 with ⟨l, sid, h4⟩
              exact Eff.noConfusion h4
            · simp at h3
        · simp at h1

theorem notePost_notes_phase_ne_nil {cfg : Config} {o : Oracle} {lid act : PyVal}
    {reply : List Char} {l : Int} {t : List Char}
    (h : Eff.notePost l t ∈ webhook_notes_phase cfg o lid reply act) : t ≠ [] := by
  unfold webhook_notes_phase at h
  split at h
  · simp at h
  · rcases ha : add_kommo_note cfg o lid (("Erika 🧠:\n".toList) ++ reply) with ⟨e1, r1⟩
    rw [ha] at h
    have hmem1 : Eff.notePost l t ∈ e1 → t ≠ [] := by
      intro hx
      have h1 : e1 = (add_kommo_note cfg o lid (("Erika 🧠:\n".toList) ++ reply)).1 := by
        rw [ha]
      rw [h1] at hx
      rcases mem_add_effects hx with ⟨l2, heq⟩
      rw [((Eff.notePost.injEq _ _ _ _).mp heq).2]
      intro h0
      rw [List.append_eq_nil] at h0
      exact absurd h0.1 (by decide)
    cases r1 with
    | error e => exact hmem1 h
    | ok u =>
      simp only [] at h
      split at h
      · rcases hs : (if pyTruthy (dictGetVal act ("summary_note".toList)) then
            add_kommo_note cfg o lid
              (("ERIKA_ACTION: ".toList) ++ pyStr (dictGetVal act ("summary_note".toList)))
          else ([], .ok ())) with ⟨e2, r2⟩
        rw [hs] at h
        have hmem2 : Eff.notePost l t ∈ e2 → t ≠ [] := by
          intro hx
          have h2 : e2 = (if pyTruthy (dictGetVal act ("summary_note".toList)) then
              add_kommo_note cfg o lid
                (("ERIKA_ACTION: ".toList) ++ pyStr (dictGetVal act ("summary_note".toList)))
            else ([], .ok ())).1 := by rw [hs]
          rw [h2] at hx
          split at hx
          · rcases mem_add_effects hx with ⟨l2, heq⟩
            rw [((Eff.notePost.injEq _ _ _ _).mp heq).2]
            intro h0
            rw [List.append_eq_nil] at h0
            exact absurd h0.1 (by decide)
          · simp at hx
        cases r2 with
        | error e =>
          simp only [] at h
          rcases List.mem_append.mp h with h1 | h1
          · exact hmem1 h1
          · exact hmem2 h1
        | ok u2 =>
          simp only [] at h
          rcases List.mem_append.mp h with h1 | h1
          · rcases List.mem_append.mp h1 with h2 | h2
            · exact hmem1 h2
            · exact hmem2 h2
          · split at h1
            · rcases mem_update_effects h1 with ⟨l2, sid, heq⟩
              exact Eff.noConfusion heq
            · simp at h1
      · exact hmem1 h

theorem whatsapp_process_ne_nil {cfg : Config} {o : Oracle} {l ld : PyVal}
    {txt : List Char}
    (h : Eff.whatsappSend ld txt ∈ (cron_process_lead cfg o l).1) : txt ≠ [] := by
  unfold cron_process_lead at h
  cases hg : pyGet l (("id").toList) with
  | error e => rw [hg] at h; simp at h
  | ok lid =>
    rw [hg] at h
    simp only [] at h
    split at h
    · simp at h
    · rcases ht : cron_try_body cfg o l lid with ⟨effs, rt⟩
      rw [ht] at h
      have h1 : effs = (cron_try_body cfg o l lid).1 := by rw [ht]
      cases rt with
      | error e =>
        simp only [] at h
        rw [h1] at h
        exact whatsapp_try_body_ne_nil h
      | ok d =>
        simp only [] at h
        rw [h1] at h
        exact whatsapp_try_body_ne_nil h

theorem whatsapp_cron_loop_ne_nil {cfg : Config} {o : Oracle} :
    ∀ (ls : List PyVal) (ld : PyVal) (txt : List Char),
      Eff.whatsappSend ld txt ∈ (cron_loop cfg o ls).1 → txt ≠ [] := by
  intro ls
  induction ls with
  | nil => intro ld txt h; simp [cron_loop] at h
  | cons l rest ih =>
    intro ld txt h
    unfold cron_loop at h
    rcases hp : cron_process_lead cfg o l with ⟨e1, r1⟩
    rw [hp] at h
    have hmem1 : Eff.whatsappSend ld txt ∈ e1 → txt ≠ [] := by
      intro hx
      have h1 : e1 = (cron_process_lead cfg o l).1 := by rw [hp]
      rw [h1] at hx
      exact whatsapp_process_ne_nil hx
    cases r1 with
    | error e => simp only [] at h; exact hmem1 h
    | ok od =>
      rcases hl : cron_loop cfg o rest with ⟨e2, r2⟩
      rw [hl] at h
      have hmem2 : Eff.whatsappSend ld txt ∈ e2 → txt ≠ [] := by
        intro hx
        have h2 : e2 = (cron_loop cfg o rest).1 := by rw [hl]
        rw [h2] at hx
        exact ih ld txt hx
      cases r2 with
      | error e =>
        simp only [] at h
        rcases List.mem_append.mp h with h1 | h1
        · exact hmem1 h1
        · exact hmem2 h1
      | ok ds =>
        simp only [] at h
        rcases List.mem_append.mp h with h1 | h1
        · exact hmem1 h1
        · exact hmem2 h1

/-! ## Claim C6 -/

/-- C6: the customer-facing reply is never the empty string. Every ok
response of the webhook carries a non-empty ai_response, every note the
webhook writes has non-empty text, and every WhatsApp delivery attempted by
the reactivation cron carries a non-empty message. -/
theorem reply_never_empty_spec (cfg : Config) (o : Oracle) :
    (∀ (payload lid act : PyVal) (r : List Char),
      (kommo_webhook cfg o payload).2 = .resp (.ok lid r act) → r ≠ []) ∧
    (∀ (payload : PyVal) (l : Int) (t : List Char),
      Eff.notePost l t ∈ (kommo_webhook cfg o payload).1 → t ≠ []) ∧
    (∀ (key : Option (List Char)) (ld : PyVal) (txt : List Char),
      Eff.whatsappSend ld txt ∈ (cron_reactivar cfg o key).1 → txt ≠ []) := by
  refine ⟨?_, ?_, ?_⟩
  · intro payload lid act r hr
    unfold kommo_webhook at hr
    rcases hA : webhook_auth_fails cfg payload with e | b
    · rw [hA] at hr; simp only [] at hr; exact Outcome.noConfusion hr
    · rw [hA] at hr
      cases b
      · simp only [] at hr
        unfold webhook_after_auth at hr
        rcases hex : webhook_extract payload with e | ⟨mt, lid2, ph⟩
        · rw [hex] at hr; simp only [] at hr; exact Outcome.noConfusion hr
        · rw [hex] at hr
          simp only [] at hr
          split at hr
          · simp at hr
          · rcases hc : call_openai_erika cfg o mt lid2 ph with ⟨eA, rA⟩
            rw [hc] at hr
            cases rA with
            | error e => simp only [] at hr; simp at hr
            | ok raw =>
              simp only [] at hr
              rcases hsp : split_erika_output raw with ⟨vis, act2⟩
              rw [hsp] at hr
              simp only [] at hr
              have h8 := (Resp.ok.injEq _ _ _ _ _ _).mp ((Outcome.resp.injEq _ _).mp hr)
              rw [← h8.2.1]
              exact webhook_reply_text_ne_nil vis
      · simp only [] at hr; simp at hr
  · intro payload l t h
    unfold kommo_webhook at h
    rcases hA : webhook_auth_fails cfg payload with e | b
    · rw [hA] at h; simp at h
    · rw [hA] at h
      cases b
      · simp only [] at h
        unfold webhook_after_auth at h
        rcases hex : webhook_extract payload with e | ⟨mt, lid2, ph⟩
        · rw [hex] at h; simp at h
        · rw [hex] at h
          simp only [] at h
          split at h
          · simp at h
          · rcases hc : call_openai_erika cfg o mt lid2 ph with ⟨eA, rA⟩
            rw [hc] at h
            have heA : eA = (call_openai_erika cfg o mt lid2 ph).1 := by rw [hc]
            cases rA with
            | error e =>
              simp only [] at h
              rw [heA] at h
              exact Eff.noConfusion (mem_call_effects h)
            | ok raw =>
              simp only [] at h
              rcases hsp : split_erika_output raw with ⟨vis, act2⟩
              rw [hsp] at h
              rcases List.mem_append.mp h with h1 | h1
              · rw [heA] at h1
                exact Eff.noConfusion (mem_call_effects h1)
              · exact notePost_notes_phase_ne_nil h1
      · simp only [] at h; simp at h
  · intro key ld txt h
    rcases key with _ | k
    · unfold cron_reactivar at h
      simp only [] at h
      split at h <;> simp at h
    · unfold cron_reactivar at h
      simp only [] at h
      split at h
      · simp at h
      · split at h
        · simp at h
        · rcases hf : fetch_leads_for_reactivation cfg o with ⟨eF, rF⟩
          rw [hf] at h
          have heF : Eff.whatsappSend ld txt ∈ eF → txt ≠ [] := by
            intro hx
            have h1 : eF = (fetch_leads_for_reactivation cfg o).1 := by rw [hf]
            rw [h1] at hx
            rcases mem_fetch_effects hx with ⟨n, heq⟩
            exact Eff.noConfusion heq
          cases rF with
          | error e => simp only [] at h; exact heF h
          | ok leads =>
            simp only [] at h
            split at h
            · exact heF h
            · cases hit : pyIter leads with
              | error e => rw [hit] at h; simp only [] at h; exact heF h
              | ok ls =>
                rw [hit] at h
                simp only [] at h
                rcases hl : cron_loop cfg o ls with ⟨eL, rL⟩
                rw [hl] at h
                have heL : Eff.whatsappSend ld txt ∈ eL → txt ≠ [] := by
                  intro hx
                  have h2 : eL = (cron_loop cfg o ls).1 := by rw [hl]
                  rw [h2] at hx
                  exact whatsapp_cron_loop_ne_nil ls ld txt hx
                cases rL with
                | error e =>
                  simp only [] at h
                  rcases List.mem_append.mp h with h1 | h1
                  · exact heF h1
                  · exact heL h1
                | ok ds =>
                  simp only [] at h
                  rcases List.mem_append.mp h with h1 | h1
                  · exact heF h1
                  · exact heL h1

/-- C6 witness: the invariant applied to a concrete processed webhook event
and to a concrete reactivation batch delivery. -/
theorem reply_never_empty_spec_witness :
    ("Olá!").toList ≠ [] ∧ ("Erika 🧠:\nOlá!").toList ≠ [] ∧
    ("Oi de novo!").toList ≠ [] := by
  refine ⟨?_, ?_, ?_⟩
  · exact (reply_never_empty_spec cfgA oracleOk).1 payloadMsgLead (.int 42)
      ACTION_SUMMARY_VAL (("Olá!").toList) rfl
  · exact (reply_never_empty_spec cfgA oracleOk).2.1 payloadMsgLead 42
      (("Erika 🧠:\nOlá!").toList) (List.Mem.tail _ (List.Mem.head _))
  · exact (reply_never_empty_spec cfgA oracleCron).2.2 (some (("s3cret").toList)) leadOne
      (("Oi de novo!").toList)
      (List.Mem.tail _ (List.Mem.tail _ (List.Mem.tail _ (List.Mem.head _))))

/-! ## Claim C5 -/

/-- C5: when the assistant call fails, a synchronous widget event never
yields a 500: the handler posts the fixed apologetic fallback to the
callback address given by the inbound event and responds normally (the
widget branch is modelled from the spec, being absent from src/app.py);
a non-widget event in the same situation yields exactly a 500. -/
theorem assistantFailure_routing_spec (cfg : Config) (o : Oracle) :
    (∀ (ev : WidgetEvent) (e : PyErr),
      (call_openai_erika cfg o ev.messageText ev.leadId .none).2 = .error e →
      (widget_webhook cfg o ev).2 = .resp (.ok ev.leadId WIDGET_FALLBACK .none) ∧
      (widget_webhook cfg o ev).1 =
        (call_openai_erika cfg o ev.messageText ev.leadId .none).1 ++
          [.widgetPost ev.returnUrl WIDGET_FALLBACK] ∧
      (∀ c, (widget_webhook cfg o ev).2 ≠ .resp (.httpErr c))) ∧
    (∀ (payload mtext lid ph : PyVal) (e : PyErr),
      webhook_auth_fails cfg payload = .ok false →
      webhook_extract payload = .ok (mtext, lid, ph) →
      (pyStrip (pyStr mtext)).isEmpty = false →
      (call_openai_erika cfg o mtext lid ph).2 = .error e →
      kommo_webhook cfg o payload =
        ((call_openai_erika cfg o mtext lid ph).1, .resp (.httpErr 500))) := by
  constructor
  · intro ev e hfail
    rcases hc : call_openai_erika cfg o ev.messageText ev.leadId .none with ⟨eA, rA⟩
    rw [hc] at hfail
    simp only at hfail
    subst hfail
    refine ⟨?_, ?_, ?_⟩
    · simp only [widget_webhook, hc]
    · simp only [widget_webhook, hc]
    · intro c hcontra
      simp only [widget_webhook, hc] at hcontra
      exact Resp.noConfusion ((Outcome.resp.injEq _ _).mp hcontra)
  · intro payload mtext lid ph e hauth hex hmt hfail
    rcases hc : call_openai_erika cfg o mtext lid ph with ⟨eA, rA⟩
    rw [hc] at hfail
    simp only at hfail
    subst hfail
    simp only [kommo_webhook, hauth, webhook_after_auth, hex, hmt, Bool.false_eq_true,
      if_false, hc]

/-- C5 witness: the widget and non-widget routes evaluated with a failing
assistant collaborator. -/
theorem assistantFailure_routing_spec_witness :
    (widget_webhook cfgA oracleErikaFail widgetEv).2 =
      .resp (.ok (.int 7) WIDGET_FALLBACK .none) ∧
    kommo_webhook cfgA oracleErikaFail payloadMsgLead =
      ([Eff.erikaCall (.str (("Oi").toList)) (.int 42) .none], .resp (.httpErr 500)) := by
  constructor
  · exact ((assistantFailure_routing_spec cfgA oracleErikaFail).1 widgetEv .httpError rfl).1
  · have h := (assistantFailure_routing_spec cfgA oracleErikaFail).2 payloadMsgLead
      (.str (("Oi").toList)) (.int 42) .none .httpError rfl rfl rfl rfl
    exact h.trans (by rfl)

/-- C2 witness: a concrete raw output whose action block is not JSON. -/
theorem splitOutput_malformed_spec_witness :
    (split_erika_output (("A### ERIKA_ACTION not json### END_ERIKA_ACTION").toList)).1 =
      ("A").toList ∧
    (split_erika_output (("A### ERIKA_ACTION not json### END_ERIKA_ACTION").toList)).2 =
      PyVal.none := by
  have h := splitOutput_malformed_spec
    (("A### ERIKA_ACTION not json### END_ERIKA_ACTION").toList) 1
    (("Expecting value").toList)
    (lastOccurrence_of_pyRfind (by decide) (by decide)) (by rfl)
  exact ⟨h.1.trans (by decide), h.2⟩

/-! ## Claim C7 -/

/-- C7 (modelled from the spec, absent from src/app.py): when the serialized
payload contains exactly two phone-pattern matches of lengths 11 and 13,
extractPhone returns the 13-digit one (longest match wins); when the payload
is phone-free (no pattern match, no vendor-prefixed match, no phone-keyed
digit-run value), extractPhone returns null — and it is a total function,
so it never throws. -/
theorem extractPhone_spec (vp cc : List Char) (p : PyVal) :
    (∀ m1 m2, phoneMatches (pyRepr p) = [m1, m2] →
      ((m1.length = 11 ∧ m2.length = 13) → extractPhone vp cc p = some m2) ∧
      ((m1.length = 13 ∧ m2.length = 11) → extractPhone vp cc p = some m1)) ∧
    (phoneMatches (pyRepr p) = [] → vendorPhoneStep vp (pyRepr p) = Option.none →
      phoneKeyWalk p = Option.none → extractPhone vp cc p = Option.none) := by
  constructor
  · intro m1 m2 hm
    constructor
    · rintro ⟨h1, h2⟩
      unfold extractPhone
      rw [hm]
      unfold longestMatch
      simp only [List.foldl]
      rw [if_pos (by omega)]
    · rintro ⟨h1, h2⟩
      unfold extractPhone
      rw [hm]
      unfold longestMatch
      simp only [List.foldl]
      rw [if_neg (by omega)]
  · intro hm hv hw
    unfold extractPhone
    rw [hm, hv, hw]
    rfl

/-- C7 witness: a payload with an 11- and a 13-digit run, and a phone-free
payload. -/
theorem extractPhone_spec_witness :
    extractPhone [] (("55").toList) (.str (("a12345678901b1234567890123c").toList)) =
      some (("1234567890123").toList) ∧
    extractPhone [] (("55").toList) (.str (("hello").toList)) = Option.none := by
  constructor
  · exact ((extractPhone_spec [] (("55").toList)
      (.str (("a12345678901b1234567890123c").toList))).1
      (("12345678901").toList) (("1234567890123").toList) (by rfl)).1
      ⟨by decide, by decide⟩
  · exact (extractPhone_spec [] (("55").toList) (.str (("hello").toList))).2
      (by rfl) (by rfl) (by rfl)

/-! ## Claim C8 -/

theorem pyGet_ok_dict {v : PyVal} {k : List Char} {x : PyVal}
    (h : pyGet v k = .ok x) : ∃ kvs, v = .dict kvs := by
  cases v
  case dict kvs => exact ⟨kvs, rfl⟩
  all_goals exact Except.noConfusion h

theorem build_ctx_dict (kvs : List (List Char × PyVal)) :
    ∃ c, build_lead_context_text (.dict kvs) = .ok c :=
  ⟨_, rfl⟩

theorem cron_process_lead_err (cfg : Config) (o : Oracle) (lead lid : PyVal) (e : PyErr)
    (hid : pyGet lead (("id").toList) = .ok lid)
    (htr : pyTruthy lid = true)
    (haid : cfg.erikaAssistantId.isEmpty = false)
    (hfail : ∀ m, o.erika m lid .none = .error e) :
    (cron_process_lead cfg o lead).2 = .ok (some (.err lid (pyErrStr e))) := by
  obtain ⟨kvs, rfl⟩ := pyGet_ok_dict hid
  obtain ⟨c, hc⟩ := build_ctx_dict kvs
  unfold cron_process_lead
  rw [hid]
  simp only [htr, Bool.not_true, Bool.false_eq_true, if_false]
  unfold cron_try_body
  rw [hc]
  simp only [call_openai_erika, haid, Bool.false_eq_true, if_false, hfail]

theorem cron_process_lead_ok (cfg : Config) (o : Oracle) (lead lid : PyVal) (t : List Char)
    (hid : pyGet lead (("id").toList) = .ok lid)
    (htr : pyTruthy lid = true)
    (haid : cfg.erikaAssistantId.isEmpty = false)
    (hok : ∀ m, o.erika m lid .none = .ok t) :
    ∃ sr ss sn, (cron_process_lead cfg o lead).2 = .ok (some (.entry lid sr ss sn)) := by
  obtain ⟨kvs, rfl⟩ := pyGet_ok_dict hid
  obtain ⟨c, hc⟩ := build_ctx_dict kvs
  refine ⟨(cron_action_fields (split_erika_output t).2).1,
    (cron_action_fields (split_erika_output t).2).2.1,
    (cron_action_fields (split_erika_output t).2).2.2, ?_⟩
  unfold cron_process_lead
  rw [hid]
  simp only [htr, Bool.not_true, Bool.false_eq_true, if_false]
  unfold cron_try_body
  rw [hc]
  simp only [call_openai_erika, haid, Bool.false_eq_true, if_false, hok]

theorem cron_loop_cons (cfg : Config) (o : Oracle) (l : PyVal) (rest : List PyVal)
    {od : Option Detail} (h : (cron_process_lead cfg o l).2 = .ok od) :
    (cron_loop cfg o (l :: rest)).2 =
      Except.map (fun ds => od.toList ++ ds) (cron_loop cfg o rest).2 := by
  rcases hp : cron_process_lead cfg o l with ⟨q1, r1⟩
  rw [hp] at h
  simp only [] at h
  subst h
  rcases hl : cron_loop cfg o rest with ⟨q2, r2⟩
  simp only [cron_loop]
  rw [hp, hl]
  cases r2 with
  | error e => rfl
  | ok ds => cases od <;> rfl

/-- C8: in a reactivation batch of three leads with well-formed ids, a
failing assistant call on the second lead does not abort the batch: the
details list has exactly three entries, the second an error entry carrying
str(e) for that lead, the first and third normal entries. -/
theorem cron_batch_isolation_spec (cfg : Config) (o : Oracle)
    (secret : List Char) (l1 l2 l3 lid1 lid2 lid3 : PyVal)
    (t1 t3 : List Char) (e2 : PyErr)
    (hsec : cfg.getenv (("CRON_SECRET").toList) = some secret)
    (hsne : secret ≠ [])
    (hfetch : (fetch_leads_for_reactivation cfg o).2 = .ok (.list [l1, l2, l3]))
    (hid1 : pyGet l1 (("id").toList) = .ok lid1) (htr1 : pyTruthy lid1 = true)
    (hid2 : pyGet l2 (("id").toList) = .ok lid2) (htr2 : pyTruthy lid2 = true)
    (hid3 : pyGet l3 (("id").toList) = .ok lid3) (htr3 : pyTruthy lid3 = true)
    (haid : cfg.erikaAssistantId.isEmpty = false)
    (hE1 : ∀ m, o.erika m lid1 .none = .ok t1)
    (hE2 : ∀ m, o.erika m lid2 .none = .error e2)
    (hE3 : ∀ m, o.erika m lid3 .none = .ok t3) :
    ∃ sr1 ss1 sn1 sr3 ss3 sn3,
      (cron_reactivar cfg o (some secret)).2 =
        .ok [.entry lid1 sr1 ss1 sn1, .err lid2 (pyErrStr e2),
             .entry lid3 sr3 ss3 sn3] := by
  obtain ⟨sr1, ss1, sn1, h1⟩ := cron_process_lead_ok cfg o l1 lid1 t1 hid1 htr1 haid hE1
  have h2 := cron_process_lead_err cfg o l2 lid2 e2 hid2 htr2 haid hE2
  obtain ⟨sr3, ss3, sn3, h3⟩ := cron_process_lead_ok cfg o l3 lid3 t3 hid3 htr3 haid hE3
  refine ⟨sr1, ss1, sn1, sr3, ss3, sn3, ?_⟩
  have hln : (cron_loop cfg o []).2 = .ok [] := rfl
  have hl3 : (cron_loop cfg o [l3]).2 = .ok [.entry lid3 sr3 ss3 sn3] := by
    rw [cron_loop_cons cfg o l3 [] h3, hln]
    rfl
  have hl23 : (cron_loop cfg o [l2, l3]).2 =
      .ok [.err lid2 (pyErrStr e2), .entry lid3 sr3 ss3 sn3] := by
    rw [cron_loop_cons cfg o l2 [l3] h2, hl3]
    rfl
  have hl123 : (cron_loop cfg o [l1, l2, l3]).2 =
      .ok [.entry lid1 sr1 ss1 sn1, .err lid2 (pyErrStr e2),
           .entry lid3 sr3 ss3 sn3] := by
    rw [cron_loop_cons cfg o l1 [l2, l3] h1, hl23]
    rfl
  unfold cron_reactivar
  rw [hsec]
  simp only [Option.getD_some, listIsEmpty_false_of_ne hsne, Bool.false_eq_true, if_false]
  rw [if_neg (fun hne => hne rfl)]
  rcases hF : fetch_leads_for_reactivation cfg o with ⟨eF, rF⟩
  rw [hF] at hfetch
  simp only [] at hfetch
  subst hfetch
  simp only []
  rw [show pyTruthy (PyVal.list [l1, l2, l3]) = true from rfl]
  simp only [Bool.not_true, Bool.false_eq_true, if_false]
  rw [show pyIter (PyVal.list [l1, l2, l3]) = .ok [l1, l2, l3] from rfl]
  simp only []
  rcases hL : cron_loop cfg o [l1, l2, l3] with ⟨eL, rL⟩
  rw [hL] at hl123
  simp only [] at hl123
  subst hl123
  rfl

/-- C8 witness: a concrete batch of three leads whose second assistant call
fails. -/
theorem cron_batch_isolation_spec_witness :
    ∃ sr1 ss1 sn1 sr3 ss3 sn3,
      (cron_reactivar cfgA oracleCron (some (("s3cret").toList))).2 =
        .ok [.entry (.int 1) sr1 ss1 sn1, .err (.int 2) (pyErrStr .httpError),
             .entry (.int 3) sr3 ss3 sn3] := by
  exact cron_batch_isolation_spec cfgA oracleCron (("s3cret").toList)
    leadOne leadTwo leadThree (.int 1) (.int 2) (.int 3)
    RAW_REACT RAW_REACT .httpError
    rfl (by decide) rfl
    rfl rfl rfl rfl rfl rfl rfl
    (fun m => rfl) (fun m => rfl) (fun m => rfl)

end KommoMW
